import Mathlib

/-!
# 2chat-check: the paginated fetch aggregator and the multi-number search

A shallow embedding of `src/services/2chatApi.js` (class `TwoChatAPI`), of
`src/controllers/chatController.js` (class `ChatController`) and of
`src/middleware/errorHandler.js`.

The remote 2Chat API is the only source of nondeterminism.  It is modelled as a
function of the history of requests issued so far (the *trace*) and of the
current request, so that every possible run of the program is the run against
some `Remote`: the trace grows with every call, hence the remote may answer the
same request differently at different times.  Every function that performs a
remote call takes the trace and returns the extended trace, which also records
how many calls were made and for which pages.

The JavaScript engine enters in two places, both fields of `Engine`: the number
of arguments one call takes, which bounds the page `push(...page)` can append,
and `String.prototype.toLowerCase`, which the title filter applies.
-/

namespace TwoChat

/-! ## Data model -/

/-- A JavaScript error as the code observes it: `error.message` and
`error.response?.status` (absent for errors made with `new Error(...)` and for
transport failures without a response). -/
structure JsError where
  message : String
  status : Option Nat
  deriving DecidableEq, Repr

/-- One message object of a page; the code never looks inside it. -/
structure Message where
  id : String
  text : Option String
  created_at : String
  deriving DecidableEq, Repr

/-- One group object of the remote listing, with the fields the code reads. -/
structure Group where
  uuid : String
  wa_group_name : Option String
  wa_subject : Option String
  size : Nat
  wa_created_at : String
  deriving DecidableEq, Repr

/-- A call of `this.client.get(url)`: the two URLs the service builds. -/
inductive Request where
  /-- The call `GET /whatsapp/groups/${phoneNumber}`. -/
  | groups (phoneNumber : String)
  /-- The call `GET /whatsapp/groups/messages/${groupUuid}?page_number=${pageNumber}`. -/
  | messages (groupUuid : String) (pageNumber : Nat)
  deriving DecidableEq, Repr

/-- The requests issued so far, oldest first. -/
abbrev Trace := List Request

/-- The `response.data` of a group listing; `data` is `none` when the payload
carries no `data` array. -/
structure GroupsPayload where
  success : Bool
  data : Option (List Group)
  deriving DecidableEq, Repr

/-- The `response.data` of a page of messages; `text` is what
`JSON.stringify(response.data)` renders. -/
structure MessagesPayload where
  success : Bool
  page_number : Option Int
  messages : Option (List Message)
  text : String
  deriving DecidableEq, Repr

/-- Lower-casing of one character of Basic Latin or Latin-1: `A`-`Z` and
`U+00C0`-`U+00DE` except the multiplication sign `U+00D7` move up by 32. -/
def latin1ToLower (c : Char) : Char :=
  if ('A' ≤ c ∧ c ≤ 'Z') ∨ ((0xC0 ≤ c.toNat ∧ c.toNat ≤ 0xDE) ∧ c.toNat ≠ 0xD7) then
    Char.ofNat (c.toNat + 32)
  else c

/-- Lower-casing of a string of Basic Latin and Latin-1 characters. -/
def latin1ToLowerCase (s : String) : String :=
  String.mk (s.data.map latin1ToLower)

/-- The JavaScript engine the program runs on, as far as the code depends on
it: how many arguments one call can take (spreading a longer array into a call
throws a `RangeError`), and the built-in `String.prototype.toLowerCase`, of
which two facts are used: on text of Basic Latin and Latin-1 characters it is
`latin1ToLowerCase`, and it never turns a non-empty string into the empty
one. -/
structure Engine where
  argumentLimit : Nat
  toLowerCase : String → String
  toLowerCase_latin1 : ∀ s : String, (∀ c ∈ s.data, c.toNat < 256) →
    toLowerCase s = latin1ToLowerCase s
  toLowerCase_eq_empty : ∀ s : String, toLowerCase s = "" → s = ""

/-- The world the program runs in: the remote API behind the axios client
(given the requests made so far, a call either resolves with a payload or
rejects with an error) and the JavaScript engine. -/
structure Remote where
  groups : Trace → String → Except JsError GroupsPayload
  messages : Trace → String → Nat → Except JsError MessagesPayload
  engine : Engine

/-- The value `getGroupMessages` resolves with. -/
structure PageResult where
  pageNumber : Option Int
  messages : List Message
  deriving DecidableEq, Repr

/-! ## JavaScript string helpers -/

/-- Whether `needle` occurs as a contiguous run inside `hay`. -/
def includesChars : List Char → List Char → Bool
  | [], needle => needle.isEmpty
  | c :: cs, needle => needle.isPrefixOf (c :: cs) || includesChars cs needle

/-- JavaScript's `s.includes(needle)`. -/
def includes (s needle : String) : Bool :=
  includesChars s.data needle.data

/-- The `TypeError` V8 throws for reading a property of `undefined`. -/
def undefinedProperty (property : String) : JsError :=
  ⟨"Cannot read properties of undefined (reading '" ++ property ++ "')", none⟩

/-- The call `array.push(...items)`: the extended array, or the `RangeError` of
a call with more arguments than the engine takes, which leaves the array as it
was. -/
def pushAll (E : Engine) (array items : List Message) : Except JsError (List Message) :=
  if items.length ≤ E.argumentLimit then .ok (array ++ items)
  else .error ⟨"Maximum call stack size exceeded", none⟩

/-! ## `TwoChatAPI` (src/services/2chatApi.js) -/

/-- Method `listGroups(phoneNumber)`: one call; the payload's `data` (`none` when
the payload has none) when its success flag is set, otherwise
`Error('Failed to fetch groups')`; a rejected call is rethrown unchanged. -/
def listGroups (R : Remote) (t : Trace) (phoneNumber : String) :
    Except JsError (Option (List Group)) × Trace :=
  let t' := t ++ [Request.groups phoneNumber]
  match R.groups t phoneNumber with
  | .ok response =>
    if response.success then (.ok response.data, t')
    else (.error ⟨"Failed to fetch groups", none⟩, t')
  | .error error => (.error error, t')

/-- Method `getGroupMessages(groupUuid, pageNumber)`: one call; the `catch` block
replaces an error carrying status 422, 401, 404 or 403 by a new `Error` and
rethrows every other error. -/
def getGroupMessages (R : Remote) (t : Trace) (groupUuid : String) (pageNumber : Nat) :
    Except JsError PageResult × Trace :=
  let t' := t ++ [Request.messages groupUuid pageNumber]
  let attempt : Except JsError PageResult :=
    match R.messages t groupUuid pageNumber with
    | .ok response =>
      if response.success then
        .ok ⟨response.page_number, response.messages.getD []⟩
      else
        .error ⟨"API returned success: false - " ++ response.text, none⟩
    | .error error => .error error
  match attempt with
  | .ok result => (.ok result, t')
  | .error error =>
    if error.status = some 422 then
      (.error ⟨"Invalid request (422): The group UUID '" ++ groupUuid ++
        "' may be invalid or you may not have access to this group's messages", none⟩, t')
    else if error.status = some 401 then
      (.error ⟨"Authentication failed (401): Please check your API key", none⟩, t')
    else if error.status = some 404 then
      (.error ⟨"Group not found (404): The group UUID '" ++ groupUuid ++
        "' does not exist", none⟩, t')
    else if error.status = some 403 then
      (.error ⟨"Access denied (403): You may not have permission to access this group's messages",
        none⟩, t')
    else (.error error, t')

/-- The `while (hasMoreMessages && currentPage < maxPages)` loop of
`getAllGroupMessages`, one iteration per unit of `fuel`.  Leaving the loop
(`hasMoreMessages = false`, or `break`) is returning the accumulator.  The
`catch` block also receives the error of `allMessages.push(...)`. -/
def getAllLoop (R : Remote) (groupUuid : String) (maxPages : Int) :
    Nat → Trace → Nat → List Message → List Message × Trace
  | 0, t, _, allMessages => (allMessages, t)
  | fuel + 1, t, currentPage, allMessages =>
    if (currentPage : Int) < maxPages then
      match getGroupMessages R t groupUuid currentPage with
      | (.ok result, t') =>
        if result.messages.length > 0 then
          match pushAll R.engine allMessages result.messages with
          | .ok pushed => getAllLoop R groupUuid maxPages fuel t' (currentPage + 1) pushed
          | .error error =>
            if includes error.message "422" && currentPage == 0 then (allMessages, t')
            else (allMessages, t')
        else (allMessages, t')
      | (.error error, t') =>
        if includes error.message "422" && currentPage == 0 then (allMessages, t')
        else (allMessages, t')
    else (allMessages, t)

/-- Method `getAllGroupMessages(groupUuid, maxPages)`: the loop started at page 0 with
an empty accumulator, then `return allMessages`.  At most `maxPages`
iterations can run, which is the fuel given. -/
def getAllGroupMessages (R : Remote) (t : Trace) (groupUuid : String) (maxPages : Int) :
    Except JsError (List Message) × Trace :=
  let out := getAllLoop R groupUuid maxPages maxPages.toNat t 0 []
  (.ok out.1, out.2)

/-- The requests for pages `0 .. n-1` of one group, in order. -/
def pageRequests (groupUuid : String) (n : Nat) : Trace :=
  (List.range n).map (Request.messages groupUuid)

/-- The messages of pages `0 .. n-1` concatenated in page order. -/
def concatPages (pages : Nat → List Message) : Nat → List Message
  | 0 => []
  | n + 1 => concatPages pages n ++ pages n

/-! ## `ChatController` (src/controllers/chatController.js) -/

/-- The controller object: its `predefinedNumbers` field. -/
structure ChatController where
  predefinedNumbers : List String
  deriving Repr

/-- The controller the constructor builds. -/
def ChatController.new : ChatController :=
  ⟨["+6580910054", "+6580261704", "+6587675861", "+6287811366678", "+6580914206",
    "+6580914387", "+6582040239", "+6582040694", "+6582040239", "+6580910054",
    "+6580910158"]⟩

/-- The `group: {...}` object of a result record. -/
structure GroupInfo where
  uuid : String
  name : Option String
  subject : Option String
  size : Nat
  created_at : String
  deriving DecidableEq, Repr

/-- One entry of `results`; a field the object literal does not set is `none`. -/
structure ResultRecord where
  phoneNumber : Option String
  group : GroupInfo
  messagesCount : Option Nat
  messages : Option (List Message)
  error : Option String
  errorType : Option String
  deriving DecidableEq, Repr

/-- One entry of `errors`. -/
structure NumberError where
  phoneNumber : String
  error : String
  deriving DecidableEq, Repr

/-- The `export` object added to a response after the file was written. -/
structure ExportInfo where
  filename : String
  path : String
  deriving DecidableEq, Repr

/-- What a handler sends: the HTTP status and the JSON body
`{success, data?, error?, export?}`. -/
structure HttpResponse (α : Type) where
  status : Nat
  success : Bool
  data : Option α
  error : Option String
  exported : Option ExportInfo
  deriving Repr

/-- The `data` object of the search-all response. -/
structure SearchAllData where
  searchType : String
  numbersSearched : Nat
  numbersWithErrors : Nat
  groupTitle : String
  matchingGroupsCount : Nat
  results : List ResultRecord
  errors : List NumberError
  deriving DecidableEq, Repr

/-- The body of `POST /api/chat/search-all`: `groupTitle` (a string when
present), `maxPages` (the integer `parseInt` reads from it, when present; for a
value `parseInt` cannot read the loop condition `currentPage < NaN` is false
from the start, which is the behaviour of `some 0`) and whether `export` is
exactly `true`. -/
structure SearchAllBody where
  groupTitle : Option String
  maxPages : Option Int
  exportParam : Bool
  deriving Repr

/-- The host the handler runs on: the clock and the file system used by the
export step. -/
structure Host where
  /-- The value of `new Date().toISOString()`. -/
  now : String
  /-- The value of `path.join(__dirname, '../../exports')`. -/
  exportsDir : String
  mkdir : String → Except JsError Unit
  writeFile : String → Except JsError Unit

/-- The filter callback: `group.wa_group_name &&
group.wa_group_name.toLowerCase().includes(groupTitle.toLowerCase())`, with the
engine's `toLowerCase`. -/
def matchesTitle (R : Remote) (groupTitle : String) (group : Group) : Bool :=
  match group.wa_group_name with
  | none => false
  | some name =>
    name != "" && includes (R.engine.toLowerCase name) (R.engine.toLowerCase groupTitle)

/-- The `matchingGroups` of `searchAllNumbers`: all groups, filtered by title when
`groupTitle` is truthy (present and not the empty string). -/
def selectGroups (R : Remote) (groupTitle : Option String) (groups : List Group) :
    List Group :=
  match groupTitle with
  | none => groups
  | some title => if title != "" then groups.filter (matchesTitle R title) else groups

/-- The group metadata copied into a result record. -/
def groupInfo (group : Group) : GroupInfo :=
  ⟨group.uuid, group.wa_group_name, group.wa_subject, group.size, group.wa_created_at⟩

/-- The `errorType` expression of the group-level `catch` blocks. -/
def errorType (message : String) : String :=
  if includes message "422" then "ACCESS_DENIED"
  else if includes message "401" then "AUTH_ERROR"
  else if includes message "404" then "NOT_FOUND"
  else "UNKNOWN_ERROR"

/-- The record pushed in the `try` branch of a group loop: the group metadata,
`messagesCount` and `messages`; `searchAllNumbers` also sets `phoneNumber`. -/
def successRecord (phoneNumber : Option String) (group : Group) (messages : List Message) :
    ResultRecord :=
  ⟨phoneNumber, groupInfo group, some messages.length, some messages, none, none⟩

/-- The record pushed in the `catch` branch of a group loop: the group
metadata, `error` and `errorType`; `searchAllNumbers` also sets `phoneNumber`. -/
def failureRecord (phoneNumber : Option String) (group : Group) (error : JsError) :
    ResultRecord :=
  ⟨phoneNumber, groupInfo group, none, none, some error.message,
    some (errorType error.message)⟩

/-- The mutable state of one `searchAllNumbers` run: the two arrays and the
requests issued so far. -/
structure SearchState where
  allResults : List ResultRecord
  errors : List NumberError
  trace : Trace
  deriving DecidableEq, Repr

/-- The body of `for (const group of matchingGroups)` in `searchAllNumbers`:
aggregate the group's pages and push a success record, or push a failure
record when the aggregation throws. -/
def processGroup (R : Remote) (maxPages : Int) (phoneNumber : String)
    (st : SearchState) (group : Group) : SearchState :=
  match getAllGroupMessages R st.trace group.uuid maxPages with
  | (.ok messages, t') =>
    { allResults := st.allResults ++ [successRecord (some phoneNumber) group messages],
      errors := st.errors, trace := t' }
  | (.error error, t') =>
    { allResults := st.allResults ++ [failureRecord (some phoneNumber) group error],
      errors := st.errors, trace := t' }

/-- The body of `for (const phoneNumber of uniqueNumbers)`: list the groups,
`continue` when none is listed or none matches, otherwise process every
matching group.  The `catch` of the iteration pushes onto `errors`: it receives
the error of a failed listing and, when the listing resolves without a `data`
array, the `TypeError` of `groups.length`.  (`groupTitle` is a string when
present, so the filter callback does not throw.) -/
def processNumber (R : Remote) (groupTitle : Option String) (maxPages : Int)
    (st : SearchState) (phoneNumber : String) : SearchState :=
  match listGroups R st.trace phoneNumber with
  | (.ok (some groups), t') =>
    if groups.length = 0 then { st with trace := t' }
    else
      let matchingGroups := selectGroups R groupTitle groups
      if matchingGroups.length = 0 then { st with trace := t' }
      else matchingGroups.foldl (processGroup R maxPages phoneNumber) { st with trace := t' }
  | (.ok none, t') =>
    { st with errors := st.errors ++ [⟨phoneNumber, (undefinedProperty "length").message⟩],
              trace := t' }
  | (.error error, t') =>
    { st with errors := st.errors ++ [⟨phoneNumber, error.message⟩], trace := t' }

/-- JavaScript's `Set.prototype.add`: a value already present is not added again. -/
def setAdd (s : List String) (x : String) : List String :=
  if x ∈ s then s else s ++ [x]

/-- The array `[...new Set(numbers)]`: the values in insertion order. -/
def uniqueNumbers (numbers : List String) : List String :=
  numbers.foldl setAdd []

/-- The outer loop of `searchAllNumbers` over a list of numbers. -/
def searchLoop (R : Remote) (groupTitle : Option String) (maxPages : Int)
    (st : SearchState) (numbers : List String) : SearchState :=
  numbers.foldl (processNumber R groupTitle maxPages) st

/-- The string `title.replace(/[^a-zA-Z0-9]/g, '_')`: the pattern has no `u`
flag, so it replaces UTF-16 code units, and a character outside the Basic
Multilingual Plane, being two code units, becomes two underscores. -/
def sanitizeTitle (title : String) : String :=
  String.mk (title.data.flatMap fun c =>
    if ('a' ≤ c ∧ c ≤ 'z') ∨ ('A' ≤ c ∧ c ≤ 'Z') ∨ ('0' ≤ c ∧ c ≤ '9') then [c]
    else if 0x10000 ≤ c.toNat then ['_', '_']
    else ['_'])

/-- The string `iso.replace(/[:.]/g, '-')`. -/
def sanitizeTimestamp (iso : String) : String :=
  String.mk (iso.data.map fun c => if c = ':' ∨ c = '.' then '-' else c)

/-- JavaScript's `x || dflt` for a string that may be absent. -/
def orDefault (x : Option String) (dflt : String) : String :=
  match x with
  | none => dflt
  | some s => if s != "" then s else dflt

/-- The export step of `searchAllNumbers`: make the directory and write the
file; either may throw. -/
def exportSearchAll (H : Host) (groupTitle : Option String) : Except JsError ExportInfo :=
  let timestamp := sanitizeTimestamp H.now
  let sanitizedTitle := sanitizeTitle (orDefault groupTitle "all-groups")
  let filename := "search-all-numbers-" ++ sanitizedTitle ++ "-" ++ timestamp ++ ".json"
  let exportPath := H.exportsDir ++ "/" ++ filename
  match H.mkdir H.exportsDir with
  | .error error => .error error
  | .ok _ =>
    match H.writeFile exportPath with
    | .error error => .error error
    | .ok _ => .ok ⟨filename, exportPath⟩

/-- Lines 247-326 of `searchAllNumbers`: two empty arrays, the numbers made
unique, and the loop over them. -/
def searchAllRun (R : Remote) (ctrl : ChatController) (t : Trace)
    (groupTitle : Option String) (maxPages : Int) : SearchState :=
  searchLoop R groupTitle maxPages ⟨[], [], t⟩ (uniqueNumbers ctrl.predefinedNumbers)

/-- The handler `searchAllNumbers(req, res)`: the response it sends and the
requests it issued.  `maxPages` defaults to 10; an error escaping the body is
answered with status 500. -/
def searchAllNumbers (H : Host) (R : Remote) (ctrl : ChatController) (t : Trace)
    (body : SearchAllBody) : HttpResponse SearchAllData × Trace :=
  let maxPages := body.maxPages.getD 10
  let uniq := uniqueNumbers ctrl.predefinedNumbers
  let st := searchAllRun R ctrl t body.groupTitle maxPages
  let data : SearchAllData :=
    { searchType := "all_numbers",
      numbersSearched := uniq.length,
      numbersWithErrors := st.errors.length,
      groupTitle := orDefault body.groupTitle "all groups",
      matchingGroupsCount := st.allResults.length,
      results := st.allResults,
      errors := st.errors }
  if body.exportParam then
    match exportSearchAll H body.groupTitle with
    | .ok info => (⟨200, true, some data, none, some info⟩, st.trace)
    | .error error =>
      (⟨500, false, none, some (orDefault (some error.message) "Failed to search all numbers"),
        none⟩, st.trace)
  else (⟨200, true, some data, none, none⟩, st.trace)

/-! ## The phone number pattern `/^\+[1-9]\d{1,14}$/` -/

/-- One piece of a regular expression: a character class repeated at least
`min` and at most `max` times. -/
structure RegexPiece where
  accepts : Char → Bool
  min : Nat
  max : Nat

/-- Whether the pieces, one after the other, match the whole of `s`: the
pattern is anchored by `^` and `$`, and every admissible number of repetitions
of a piece is tried. -/
def matchPieces : List RegexPiece → List Char → Bool
  | [], s => s.isEmpty
  | p :: ps, s =>
    (List.range (p.max + 1)).any fun n =>
      decide (p.min ≤ n) && decide (n ≤ s.length) && (s.take n).all p.accepts
        && matchPieces ps (s.drop n)

/-- The pieces of `/^\+[1-9]\d{1,14}$/`: a plus sign, one of `[1-9]`, and 1 to
14 of `\d`, which is `[0-9]`. -/
def phoneRegex : List RegexPiece :=
  [⟨fun c => c == '+', 1, 1⟩,
   ⟨fun c => decide ('1' ≤ c) && decide (c ≤ '9'), 1, 1⟩,
   ⟨fun c => decide ('0' ≤ c) && decide (c ≤ '9'), 1, 14⟩]

/-- The value of `phoneRegex.test(phoneNumber)`. -/
def phoneRegexTest (phoneNumber : String) : Bool :=
  matchPieces phoneRegex phoneNumber.data

/-! ## The handlers `listGroups` and `searchGroupsByTitle` -/

/-- The `data` object of the list-groups response. -/
structure ListGroupsData where
  phoneNumber : String
  groupsCount : Nat
  groups : List Group
  deriving DecidableEq, Repr

/-- The `data` object of the search response; a field the object literal does
not set is `none`.  The two literals of the handler set different fields. -/
structure SearchData where
  phoneNumber : String
  searchTerm : String
  matchingGroupsCount : Option Nat
  results : Option (List ResultRecord)
  matchingGroups : Option (List Group)
  message : Option String
  deriving DecidableEq, Repr

/-- The body of `POST /api/chat/search`; the fields are typed as for
`SearchAllBody`. -/
structure SearchBody where
  phoneNumber : Option String
  groupTitle : Option String
  maxPages : Option Int
  exportParam : Bool
  deriving Repr

/-- The answer `res.status(status).json({ success: false, error })`. -/
def errorResponse {α : Type} (status : Nat) (error : String) : HttpResponse α :=
  ⟨status, false, none, some error, none⟩

/-- JavaScript's `!x` for a string that may be absent: true for an absent and
for an empty string. -/
def falsy (x : Option String) : Bool :=
  match x with
  | none => true
  | some s => s == ""

/-- The handler `listGroups(req, res)` for `req.params.phoneNumber`: 400 for a
missing or malformed number, otherwise one listing call, answered with the
groups or, when it throws, with status 500; so is the `TypeError` of
`groups.length` when the listing resolves without a `data` array. -/
def ChatController.listGroups (R : Remote) (t : Trace) (phoneNumber : Option String) :
    HttpResponse ListGroupsData × Trace :=
  if falsy phoneNumber then (errorResponse 400 "Phone number is required", t)
  else
    let phone := phoneNumber.getD ""
    if !phoneRegexTest phone then
      (errorResponse 400
        "Invalid phone number format. Use international format (e.g., +1234567890)", t)
    else
      match TwoChat.listGroups R t phone with
      | (.ok (some groups), t') =>
        (⟨200, true, some ⟨phone, groups.length, groups⟩, none, none⟩, t')
      | (.ok none, t') =>
        (errorResponse 500
          (orDefault (some (undefinedProperty "length").message) "Failed to fetch groups"), t')
      | (.error error, t') =>
        (errorResponse 500 (orDefault (some error.message) "Failed to fetch groups"), t')

/-- The body of `for (const group of matchingGroups)` in `searchGroupsByTitle`:
the state is the `results` array and the requests issued so far. -/
def processMatchingGroup (R : Remote) (maxPages : Int) (st : List ResultRecord × Trace)
    (group : Group) : List ResultRecord × Trace :=
  match getAllGroupMessages R st.2 group.uuid maxPages with
  | (.ok messages, t') => (st.1 ++ [successRecord none group messages], t')
  | (.error error, t') => (st.1 ++ [failureRecord none group error], t')

/-- The export step of `searchGroupsByTitle`. -/
def exportSearch (H : Host) (groupTitle : String) : Except JsError ExportInfo :=
  let timestamp := sanitizeTimestamp H.now
  let sanitizedTitle := sanitizeTitle groupTitle
  let filename := "search-results-" ++ sanitizedTitle ++ "-" ++ timestamp ++ ".json"
  let exportPath := H.exportsDir ++ "/" ++ filename
  match H.mkdir H.exportsDir with
  | .error error => .error error
  | .ok _ =>
    match H.writeFile exportPath with
    | .error error => .error error
    | .ok _ => .ok ⟨filename, exportPath⟩

/-- The handler `searchGroupsByTitle(req, res)`: 400 when the number or the
title is missing or the number is malformed; otherwise one listing call, the
title filter, an early answer when no group matches, and else one record per
matching group.  `maxPages` defaults to 10; an error escaping the body,
also the `TypeError` of `groups.filter` when the listing resolves without a
`data` array, is answered with status 500. -/
def ChatController.searchGroupsByTitle (H : Host) (R : Remote) (t : Trace) (body : SearchBody) :
    HttpResponse SearchData × Trace :=
  if falsy body.phoneNumber || falsy body.groupTitle then
    (errorResponse 400 "Phone number and group title are required", t)
  else
    let phoneNumber := body.phoneNumber.getD ""
    let groupTitle := body.groupTitle.getD ""
    let maxPages := body.maxPages.getD 10
    if !phoneRegexTest phoneNumber then
      (errorResponse 400
        "Invalid phone number format. Use international format (e.g., +1234567890)", t)
    else
      match TwoChat.listGroups R t phoneNumber with
      | (.error error, t') =>
        (errorResponse 500
          (orDefault (some error.message) "Failed to search groups and fetch chat history"), t')
      | (.ok none, t') =>
        (errorResponse 500
          (orDefault (some (undefinedProperty "filter").message)
            "Failed to search groups and fetch chat history"), t')
      | (.ok (some groups), t') =>
        let matchingGroups := groups.filter (matchesTitle R groupTitle)
        if matchingGroups.length = 0 then
          (⟨200, true,
            some ⟨phoneNumber, groupTitle, none, none, some [],
              some "No groups found matching the title"⟩, none, none⟩, t')
        else
          let out := matchingGroups.foldl (processMatchingGroup R maxPages) ([], t')
          let data : SearchData :=
            ⟨phoneNumber, groupTitle, some matchingGroups.length, some out.1, none, none⟩
          if body.exportParam then
            match exportSearch H groupTitle with
            | .ok info => (⟨200, true, some data, none, some info⟩, out.2)
            | .error error =>
              (errorResponse 500
                (orDefault (some error.message)
                  "Failed to search groups and fetch chat history"), out.2)
          else (⟨200, true, some data, none, none⟩, out.2)

/-! ## The middleware `errorHandler` (src/middleware/errorHandler.js) -/

/-- The `err.response` of an error: its `status` and its `data?.message`. -/
structure ErrorResponsePart where
  status : Option Nat
  dataMessage : Option String
  deriving DecidableEq, Repr

/-- An error reaching the middleware, with the fields it reads. -/
structure MiddlewareError where
  name : String
  message : String
  status : Option Nat
  code : Option String
  response : Option ErrorResponsePart
  deriving DecidableEq, Repr

/-- The object the middleware sends: `{ success, message, status }`. -/
structure ErrorHandlerBody where
  success : Bool
  message : String
  status : Nat
  deriving DecidableEq, Repr

/-- JavaScript's `x || dflt` for a number that may be absent: 0 is falsy. -/
def orDefaultNat (x : Option Nat) (dflt : Nat) : Nat :=
  match x with
  | none => dflt
  | some n => if n = 0 then dflt else n

/-- The middleware `errorHandler(err, req, res, next)`: the status it sets and
the body it sends. -/
def errorHandler (err : MiddlewareError) : Nat × ErrorHandlerBody :=
  let message := orDefault (some err.message) "Internal Server Error"
  let status := orDefaultNat err.status 500
  let error : ErrorHandlerBody :=
    if err.name = "ValidationError" then ⟨false, "Validation Error", 400⟩
    else if err.name = "UnauthorizedError" then ⟨false, "Unauthorized", 401⟩
    else if err.code = some "ENOTFOUND" then ⟨false, "API endpoint not found", 404⟩
    else
      match err.response with
      | some response =>
        match response.status with
        | some st =>
          if st = 0 then ⟨false, message, status⟩
          else ⟨false, orDefault response.dataMessage err.message, st⟩
        | none => ⟨false, message, status⟩
      | none => ⟨false, message, status⟩
  (error.status, error)

/-! ## Reading a run back from its trace -/

/-- The listing outcome every `groups` request of `suffix` received, in
order, when `suffix` was issued after `pre`: the outcome is what `listGroups`
produces at the trace that preceded the request. -/
def listingOutcomes (R : Remote) :
    Trace → Trace → List (String × Except JsError (Option (List Group)))
  | _, [] => []
  | pre, Request.groups p :: rest =>
    (p, (listGroups R pre p).1) :: listingOutcomes R (pre ++ [Request.groups p]) rest
  | pre, Request.messages u n :: rest =>
    listingOutcomes R (pre ++ [Request.messages u n]) rest

/-- Whether a request is a group listing. -/
def Request.isGroups : Request → Bool
  | Request.groups _ => true
  | Request.messages _ _ => false

/-- The requests a run issued, given the trace it started from and the trace
it ended with. -/
def issued (start final : Trace) : Trace :=
  final.drop start.length

/-- The number and the group a result record is about. -/
def ResultRecord.target (r : ResultRecord) : Option String × GroupInfo :=
  (r.phoneNumber, r.group)

/-- The `errors` entry a listing outcome is expected to produce: one for a
failed listing, carrying the failure's message, and one for a listing that
resolved without a `data` array, carrying the message of the `TypeError`. -/
def failureOf (o : String × Except JsError (Option (List Group))) : Option NumberError :=
  match o.2 with
  | .ok (some _) => none
  | .ok none => some ⟨o.1, (undefinedProperty "length").message⟩
  | .error e => some ⟨o.1, e.message⟩

/-- A state with `results` and `errors` put in front of its two arrays. -/
def SearchState.prepend (results : List ResultRecord) (errors : List NumberError)
    (st : SearchState) : SearchState :=
  ⟨results ++ st.allResults, errors ++ st.errors, st.trace⟩

/-- How many groups of a listing outcome match the title: the number of
(number, matching group) pairs the number contributes; none when the listing
failed. -/
def matchingCount (R : Remote) (groupTitle : Option String)
    (o : String × Except JsError (Option (List Group))) : Nat :=
  match o.2 with
  | .ok (some groups) => (selectGroups R groupTitle groups).length
  | .ok none => 0
  | .error _ => 0

/-- Whether a listing outcome is a failure: the listing call threw. -/
def listingFailed (o : String × Except JsError (Option (List Group))) : Bool :=
  match o.2 with
  | .ok _ => false
  | .error _ => true

/-- Whether a listing outcome resolved without a `data` array. -/
def listingWithoutData (o : String × Except JsError (Option (List Group))) : Bool :=
  match o.2 with
  | .ok none => true
  | .ok (some _) => false
  | .error _ => false

/-- The `(phoneNumber, group)` pairs a listing outcome is expected to put in
`results`: one per matching group, in listing order. -/
def pairsOf (R : Remote) (groupTitle : Option String)
    (o : String × Except JsError (Option (List Group))) : List (Option String × GroupInfo) :=
  match o.2 with
  | .ok (some groups) => (selectGroups R groupTitle groups).map fun g => (some o.1, groupInfo g)
  | .ok none => []
  | .error _ => []

/-! ## The two shapes of a result record -/

/-- A success record: `messages` and `messagesCount` are set, the count is the
length of the messages, and neither `error` nor `errorType` is set. -/
def ResultRecord.successShape (r : ResultRecord) : Bool :=
  match r.messages, r.messagesCount with
  | some messages, some n => n == messages.length && r.error.isNone && r.errorType.isNone
  | _, _ => false

/-- A failure record: `error` and `errorType` are set, and neither `messages`
nor `messagesCount` is. -/
def ResultRecord.failureShape (r : ResultRecord) : Bool :=
  r.error.isSome && r.errorType.isSome && r.messages.isNone && r.messagesCount.isNone

/-- Whether the group metadata of a record is that of the listed group `g`,
field by field. -/
def ResultRecord.copiedFrom (r : ResultRecord) (g : Group) : Prop :=
  r.group.uuid = g.uuid ∧ r.group.name = g.wa_group_name ∧ r.group.subject = g.wa_subject
    ∧ r.group.size = g.size ∧ r.group.created_at = g.wa_created_at

/-! ## Concrete remotes used to run the definitions -/

/-- Three messages of a first page. -/
def teamMessages : List Message :=
  [⟨"MSG-1", some "Good morning team!", "2025-01-03T09:00:00"⟩,
   ⟨"MSG-2", some "Standup in five minutes.", "2025-01-03T09:01:30"⟩,
   ⟨"MSG-3", none, "2025-01-03T09:02:10"⟩]

/-- Two messages of a second page. -/
def moreMessages : List Message :=
  [⟨"MSG-4", some "Notes are in the shared folder.", "2025-01-03T09:30:00"⟩,
   ⟨"MSG-5", some "Thanks!", "2025-01-03T09:31:00"⟩]

/-- The one group the first number of the scenario lists. -/
def teamGroup : Group :=
  ⟨"WAG-team-1", some "Work Team", some "Project updates", 12, "2024-02-20T09:15:00Z"⟩

/-- An engine whose calls take at most 100000 arguments and whose
`toLowerCase` folds the letters of Basic Latin and Latin-1. -/
def sampleEngine : Engine where
  argumentLimit := 100000
  toLowerCase := latin1ToLowerCase
  toLowerCase_latin1 := fun _ _ => rfl
  toLowerCase_eq_empty := fun _ h =>
    String.ext (List.map_eq_nil_iff.mp (congrArg String.data h))

/-- The rejection axios produces for an HTTP status. -/
def httpFailure (status : Nat) : JsError :=
  ⟨"Request failed with status code " ++ toString status, some status⟩

/-- A remote whose groups hold `teamMessages` on page 0 and nothing after;
`+15551234567` lists `teamGroup`, every other number is rejected with 401. -/
def teamRemote : Remote where
  groups := fun _ phoneNumber =>
    if phoneNumber = "+15551234567" then .ok ⟨true, some [teamGroup]⟩
    else .error (httpFailure 401)
  messages := fun _ _ pageNumber =>
    if pageNumber = 0 then .ok ⟨true, some 0, some teamMessages, ""⟩
    else .ok ⟨true, some pageNumber, some [], ""⟩
  engine := sampleEngine

/-- Pages 0 and 1 of the two-page remotes below. -/
def twoPages (i : Nat) : List Message :=
  if i = 0 then teamMessages else moreMessages

/-- A remote with two non-empty pages whose third page is rejected with 500. -/
def flakyRemote : Remote where
  groups := fun _ _ => .ok ⟨true, some [teamGroup]⟩
  messages := fun _ _ pageNumber =>
    if pageNumber < 2 then .ok ⟨true, some pageNumber, some (twoPages pageNumber), ""⟩
    else .error (httpFailure 500)
  engine := sampleEngine

/-- A remote that rejects every page request with 422. -/
def deniedRemote : Remote where
  groups := fun _ _ => .ok ⟨true, some [teamGroup]⟩
  messages := fun _ _ _ => .error (httpFailure 422)
  engine := sampleEngine

/-- A host whose file system accepts every write. -/
def localHost : Host where
  now := "2025-01-03T09:00:00.000Z"
  exportsDir := "/srv/app/exports"
  mkdir := fun _ => .ok ()
  writeFile := fun _ => .ok ()

/-- A controller over the two numbers of the scenario, the first one twice. -/
def scenarioController : ChatController :=
  ⟨["+15551234567", "+15557654321", "+15551234567"]⟩

/-- A controller whose first number cannot be listed by `teamRemote`. -/
def failingFirstController : ChatController :=
  ⟨["+15557654321", "+15551234567"]⟩

/-- A group whose listing carries no name. -/
def namelessGroup : Group :=
  ⟨"WAG-nameless-3", none, none, 4, "2024-03-01T08:00:00Z"⟩

/-- A group named as in the filter example. -/
def familyGroup : Group :=
  ⟨"WAG-family-2", some "Family Chat", some "Family chat and updates", 8, "2024-01-15T10:30:00Z"⟩

/-- A remote that lists three groups for every number and serves
`teamMessages` as the only non-empty page of every group. -/
def mixedRemote : Remote where
  groups := fun _ _ => .ok ⟨true, some [teamGroup, familyGroup, namelessGroup]⟩
  messages := fun _ _ pageNumber =>
    if pageNumber = 0 then .ok ⟨true, some 0, some teamMessages, ""⟩
    else .ok ⟨true, some pageNumber, some [], ""⟩
  engine := sampleEngine

/-- A remote that answers every call with status 200 and a payload whose
success flag is false. -/
def refusingRemote : Remote where
  groups := fun _ _ => .ok ⟨false, none⟩
  messages := fun _ _ _ => .ok ⟨false, none, none, "\x7b\"success\":false\x7d"⟩
  engine := sampleEngine

/-- A remote that rejects every call with the given status. -/
def rejectingRemote (status : Nat) : Remote where
  groups := fun _ _ => .error (httpFailure status)
  messages := fun _ _ _ => .error (httpFailure status)
  engine := sampleEngine

/-- A remote that lists `teamGroup` for every number and rejects every page
request with the given status. -/
def pageRejectingRemote (status : Nat) : Remote where
  groups := fun _ _ => .ok ⟨true, some [teamGroup]⟩
  messages := fun _ _ _ => .error (httpFailure status)
  engine := sampleEngine

/-- A remote whose listing payloads have the success flag set and no `data`
array. -/
def dataLessRemote : Remote where
  groups := fun _ _ => .ok ⟨true, none⟩
  messages := fun _ _ _ => .ok ⟨true, none, some [], ""⟩
  engine := sampleEngine

/-- A page of 500000 messages, more than one call of `sampleEngine` takes. -/
def bulkPage : List Message :=
  List.replicate 500000 ⟨"MSG-0", some "ping", "2025-01-03T09:00:00"⟩

/-- A remote whose page 0 is `bulkPage`, whose page 1 is `moreMessages` and
whose later pages are empty. -/
def bulkFirstRemote : Remote where
  groups := fun _ _ => .ok ⟨true, some [teamGroup]⟩
  messages := fun _ _ pageNumber =>
    if pageNumber = 0 then .ok ⟨true, some 0, some bulkPage, ""⟩
    else if pageNumber = 1 then .ok ⟨true, some 1, some moreMessages, ""⟩
    else .ok ⟨true, some pageNumber, some [], ""⟩
  engine := sampleEngine

/-- A remote whose page 0 is `teamMessages`, whose page 1 is `bulkPage` and
whose later pages are rejected with 500. -/
def bulkSecondRemote : Remote where
  groups := fun _ _ => .ok ⟨true, some [teamGroup]⟩
  messages := fun _ _ pageNumber =>
    if pageNumber = 0 then .ok ⟨true, some 0, some teamMessages, ""⟩
    else if pageNumber = 1 then .ok ⟨true, some 1, some bulkPage, ""⟩
    else .error (httpFailure 500)
  engine := sampleEngine

/-- A group whose name has capital letters outside Basic Latin. -/
def schoolGroup : Group :=
  ⟨"WAG-school-5", some "ÉCOLE Parents", none, 21, "2024-09-02T07:45:00Z"⟩

/-! ## Lemmas on the page loop -/

theorem getGroupMessages_trace (R : Remote) (t : Trace) (u : String) (p : Nat) :
    (getGroupMessages R t u p).2 = t ++ [Request.messages u p] := by
  unfold getGroupMessages
  cases R.messages t u p with
  | error e => simp only []; split_ifs <;> rfl
  | ok resp =>
    by_cases hs : resp.success = true
    · simp [hs]
    · simp only [hs]; simp

theorem listGroups_trace (R : Remote) (t : Trace) (p : String) :
    (listGroups R t p).2 = t ++ [Request.groups p] := by
  unfold listGroups
  cases R.groups t p with
  | error e => rfl
  | ok resp => simp only []; split_ifs <;> rfl

theorem pageRequests_succ (u : String) (n : Nat) :
    pageRequests u (n + 1) = pageRequests u n ++ [Request.messages u n] := by
  simp [pageRequests, List.range_succ]

theorem getAllLoop_step_ok (R : Remote) (u : String) (maxPages : Int) (fuel : Nat) (t : Trace)
    (c : Nat) (acc : List Message) (r : PageResult) (hc : (c : Int) < maxPages)
    (hr : (getGroupMessages R t u c).1 = Except.ok r) (hne : r.messages ≠ [])
    (hfit : r.messages.length ≤ R.engine.argumentLimit) :
    getAllLoop R u maxPages (fuel + 1) t c acc
      = getAllLoop R u maxPages fuel (t ++ [Request.messages u c]) (c + 1) (acc ++ r.messages) := by
  have ht := getGroupMessages_trace R t u c
  rw [getAllLoop, if_pos hc]
  rcases hg : getGroupMessages R t u c with ⟨res, t'⟩
  rw [hg] at hr ht
  simp only at hr ht
  subst hr ht
  have hpos : r.messages.length > 0 := List.length_pos.mpr hne
  simp only [hpos, if_true, pushAll, hfit]

/-- A page with more messages than one call takes: `push` throws, the `catch`
ends the loop, and the page is not accumulated. -/
theorem getAllLoop_step_overflow (R : Remote) (u : String) (maxPages : Int) (fuel : Nat)
    (t : Trace) (c : Nat) (acc : List Message) (r : PageResult) (hc : (c : Int) < maxPages)
    (hr : (getGroupMessages R t u c).1 = Except.ok r)
    (hbig : ¬ r.messages.length ≤ R.engine.argumentLimit) :
    getAllLoop R u maxPages (fuel + 1) t c acc = (acc, t ++ [Request.messages u c]) := by
  have ht := getGroupMessages_trace R t u c
  rw [getAllLoop, if_pos hc]
  rcases hg : getGroupMessages R t u c with ⟨res, t'⟩
  rw [hg] at hr ht
  simp only at hr ht
  subst hr ht
  have hpos : r.messages.length > 0 := by omega
  simp only [hpos, if_true, pushAll, hbig, if_false]
  split_ifs <;> rfl

theorem getAllLoop_step_empty (R : Remote) (u : String) (maxPages : Int) (fuel : Nat) (t : Trace)
    (c : Nat) (acc : List Message) (r : PageResult) (hc : (c : Int) < maxPages)
    (hr : (getGroupMessages R t u c).1 = Except.ok r) (he : r.messages = []) :
    getAllLoop R u maxPages (fuel + 1) t c acc = (acc, t ++ [Request.messages u c]) := by
  have ht := getGroupMessages_trace R t u c
  rw [getAllLoop, if_pos hc]
  rcases hg : getGroupMessages R t u c with ⟨res, t'⟩
  rw [hg] at hr ht
  simp only at hr ht
  subst hr ht
  simp [he]

theorem getAllLoop_step_error (R : Remote) (u : String) (maxPages : Int) (fuel : Nat) (t : Trace)
    (c : Nat) (acc : List Message) (e : JsError) (hc : (c : Int) < maxPages)
    (hr : (getGroupMessages R t u c).1 = Except.error e) :
    getAllLoop R u maxPages (fuel + 1) t c acc = (acc, t ++ [Request.messages u c]) := by
  have ht := getGroupMessages_trace R t u c
  rw [getAllLoop, if_pos hc]
  rcases hg : getGroupMessages R t u c with ⟨res, t'⟩
  rw [hg] at hr ht
  simp only at hr ht
  subst hr ht
  simp only []
  split_ifs <;> rfl

theorem getAllLoop_done (R : Remote) (u : String) (maxPages : Int) (fuel : Nat) (t : Trace)
    (c : Nat) (acc : List Message) (hc : ¬ (c : Int) < maxPages) :
    getAllLoop R u maxPages fuel t c acc = (acc, t) := by
  cases fuel with
  | zero => rfl
  | succ f => rw [getAllLoop, if_neg hc]

/-- Walking `n` successful non-empty pages from page 0, each small enough to be
pushed in one call: the loop reaches page `n` with their concatenation
accumulated and their requests traced. -/
theorem getAllLoop_walk (R : Remote) (u : String) (maxPages : Int) (t : Trace)
    (pages : Nat → List Message) (n : Nat) (fuel : Nat) (hn : (n : Int) ≤ maxPages)
    (hpages : ∀ i, i < n → ∃ r, (getGroupMessages R (t ++ pageRequests u i) u i).1 = Except.ok r
      ∧ r.messages = pages i ∧ pages i ≠ [] ∧ (pages i).length ≤ R.engine.argumentLimit) :
    getAllLoop R u maxPages (fuel + n) t 0 []
      = getAllLoop R u maxPages fuel (t ++ pageRequests u n) n (concatPages pages n) := by
  induction n generalizing fuel with
  | zero => simp [pageRequests, concatPages]
  | succ n ih =>
    have hn' : (n : Int) ≤ maxPages := by push_cast at hn; omega
    have hlt : (n : Int) < maxPages := by push_cast at hn; omega
    have h1 := ih (fuel + 1) hn' (fun i hi => hpages i (Nat.lt_succ_of_lt hi))
    obtain ⟨r, hr, hm, hne, hfit⟩ := hpages n (Nat.lt_succ_self n)
    have e : fuel + (n + 1) = fuel + 1 + n := by omega
    rw [e, h1, getAllLoop_step_ok R u maxPages fuel _ n _ r hlt hr (hm ▸ hne) (hm ▸ hfit), hm,
      pageRequests_succ, List.append_assoc]
    rfl

/-! ## The page aggregator: `getAllGroupMessages` -/

/-- When pages `0 .. k-1` are fetched successfully, are non-empty and are each
small enough to be pushed in one call, page `k` is fetched successfully and is
empty, and `maxPages > k`, then `getAllGroupMessages` returns exactly the
concatenation of pages `0 .. k-1` in page order, and the requests it issued
are those for pages `0 .. k` and no other. -/
theorem aggregate_stops_at_empty_page (R : Remote) (t : Trace) (groupUuid : String)
    (k : Nat) (maxPages : Int) (pages : Nat → List Message) (hmax : (k : Int) < maxPages)
    (hpages : ∀ i, i < k → ∃ r,
      (getGroupMessages R (t ++ pageRequests groupUuid i) groupUuid i).1 = Except.ok r
        ∧ r.messages = pages i ∧ pages i ≠ [] ∧ (pages i).length ≤ R.engine.argumentLimit)
    (hempty : ∃ r,
      (getGroupMessages R (t ++ pageRequests groupUuid k) groupUuid k).1 = Except.ok r
        ∧ r.messages = []) :
    getAllGroupMessages R t groupUuid maxPages
      = (Except.ok (concatPages pages k), t ++ pageRequests groupUuid (k + 1)) := by
  obtain ⟨r, hr, he⟩ := hempty
  have hfuel : maxPages.toNat = (maxPages.toNat - k - 1) + 1 + k := by omega
  unfold getAllGroupMessages
  rw [hfuel, getAllLoop_walk R groupUuid maxPages t pages k _ (le_of_lt hmax) hpages,
    getAllLoop_step_empty R groupUuid maxPages _ _ k _ r hmax hr he, pageRequests_succ,
    List.append_assoc]

/-- When pages `0 .. k-1` are fetched successfully, are non-empty and are each
small enough to be pushed in one call, and the fetch of page `k < maxPages`
fails, `getAllGroupMessages` resolves with the concatenation of pages
`0 .. k-1`. -/
theorem aggregate_swallows_failure (R : Remote) (t : Trace)
    (groupUuid : String) (k : Nat) (maxPages : Int) (pages : Nat → List Message)
    (hmax : (k : Int) < maxPages)
    (hpages : ∀ i, i < k → ∃ r,
      (getGroupMessages R (t ++ pageRequests groupUuid i) groupUuid i).1 = Except.ok r
        ∧ r.messages = pages i ∧ pages i ≠ [] ∧ (pages i).length ≤ R.engine.argumentLimit)
    (hfail : ∃ e,
      (getGroupMessages R (t ++ pageRequests groupUuid k) groupUuid k).1 = Except.error e) :
    getAllGroupMessages R t groupUuid maxPages
      = (Except.ok (concatPages pages k), t ++ pageRequests groupUuid (k + 1)) := by
  obtain ⟨e, he⟩ := hfail
  have hfuel : maxPages.toNat = (maxPages.toNat - k - 1) + 1 + k := by omega
  unfold getAllGroupMessages
  rw [hfuel, getAllLoop_walk R groupUuid maxPages t pages k _ (le_of_lt hmax) hpages,
    getAllLoop_step_error R groupUuid maxPages _ _ k _ e hmax he, pageRequests_succ,
    List.append_assoc]

/-- When the pages `0 .. maxPages-1` are all fetched successfully, are all
non-empty and are each small enough to be pushed in one call,
`getAllGroupMessages` returns their concatenation and issues exactly those
`maxPages` requests. -/
theorem aggregate_page_cap (R : Remote) (t : Trace) (groupUuid : String)
    (maxPages : Int) (pages : Nat → List Message)
    (hpages : ∀ i, i < maxPages.toNat → ∃ r,
      (getGroupMessages R (t ++ pageRequests groupUuid i) groupUuid i).1 = Except.ok r
        ∧ r.messages = pages i ∧ pages i ≠ [] ∧ (pages i).length ≤ R.engine.argumentLimit) :
    getAllGroupMessages R t groupUuid maxPages
      = (Except.ok (concatPages pages maxPages.toNat),
          t ++ pageRequests groupUuid maxPages.toNat) := by
  have hle : ((maxPages.toNat : Nat) : Int) ≤ maxPages ∨ maxPages.toNat = 0 := by omega
  unfold getAllGroupMessages
  rcases hle with hle | h0
  · have h := getAllLoop_walk R groupUuid maxPages t pages maxPages.toNat 0 hle hpages
    rw [Nat.zero_add] at h
    rw [h]
    rfl
  · rw [h0]
    simp [getAllLoop, concatPages, pageRequests]

/-- The three lemmas above at the small pages of `teamRemote` and
`flakyRemote`. -/
theorem aggregate_small_pages :
    getAllGroupMessages teamRemote [] "WAG-team-1" 5
        = (Except.ok teamMessages,
            [Request.messages "WAG-team-1" 0, Request.messages "WAG-team-1" 1])
      ∧ getAllGroupMessages flakyRemote [] "WAG-team-1" 10
        = (Except.ok (teamMessages ++ moreMessages),
            [Request.messages "WAG-team-1" 0, Request.messages "WAG-team-1" 1,
              Request.messages "WAG-team-1" 2])
      ∧ getAllGroupMessages flakyRemote [] "WAG-team-1" 2
        = (Except.ok (teamMessages ++ moreMessages),
            [Request.messages "WAG-team-1" 0, Request.messages "WAG-team-1" 1]) := by
  have hteam := aggregate_stops_at_empty_page teamRemote [] "WAG-team-1" 1 5
    (fun _ => teamMessages) (by decide)
    (fun i hi => by
      have h0 : i = 0 := by omega
      subst h0
      exact ⟨⟨some 0, teamMessages⟩, rfl, rfl, by decide, by decide⟩)
    ⟨⟨some 1, []⟩, rfl, rfl⟩
  have hpages : ∀ i, i < 2 → ∃ r,
      (getGroupMessages flakyRemote ([] ++ pageRequests "WAG-team-1" i) "WAG-team-1" i).1
          = Except.ok r
        ∧ r.messages = twoPages i ∧ twoPages i ≠ []
        ∧ (twoPages i).length ≤ flakyRemote.engine.argumentLimit := by
    intro i hi
    have h01 : i = 0 ∨ i = 1 := by omega
    rcases h01 with h | h <;> subst h
    · exact ⟨⟨some 0, teamMessages⟩, rfl, rfl, by decide, by decide⟩
    · exact ⟨⟨some 1, moreMessages⟩, rfl, rfl, by decide, by decide⟩
  have hflaky := aggregate_swallows_failure flakyRemote [] "WAG-team-1" 2 10 twoPages
    (by decide) hpages ⟨httpFailure 500, rfl⟩
  have hcap := aggregate_page_cap flakyRemote [] "WAG-team-1" 2 twoPages hpages
  exact ⟨hteam, hflaky, hcap⟩

theorem bulkPage_length : bulkPage.length = 500000 :=
  List.length_replicate _ _

/-- The size of `bulkPage` against the argument limit of `sampleEngine`. -/
theorem bulkPage_too_big (R : Remote) (h : R.engine = sampleEngine) (r : PageResult)
    (hr : r.messages = bulkPage) : ¬ r.messages.length ≤ R.engine.argumentLimit := by
  rw [hr, h, bulkPage_length]
  decide

/-- C1 (the code at the failing input): page 0 is fetched successfully and
holds the 500000 messages of `bulkPage`, page 1 is fetched successfully and
holds two messages, page 2 is empty and `maxPages = 10`; spreading page 0 into
`push` throws, the `catch` ends the loop, and `getAllGroupMessages` returns the
empty list after the one request for page 0, not the concatenation of pages 0
and 1. -/
theorem getAllGroupMessages_drops_oversized_page :
    (getGroupMessages bulkFirstRemote [] "WAG-team-1" 0).1 = Except.ok ⟨some 0, bulkPage⟩
      ∧ bulkPage.length = 500000
      ∧ bulkFirstRemote.engine.argumentLimit = 100000
      ∧ (getGroupMessages bulkFirstRemote (pageRequests "WAG-team-1" 1) "WAG-team-1" 1).1
        = Except.ok ⟨some 1, moreMessages⟩
      ∧ (getGroupMessages bulkFirstRemote (pageRequests "WAG-team-1" 2) "WAG-team-1" 2).1
        = Except.ok ⟨some 2, []⟩
      ∧ getAllGroupMessages bulkFirstRemote [] "WAG-team-1" 10
        = (Except.ok [], [Request.messages "WAG-team-1" 0]) := by
  refine ⟨rfl, bulkPage_length, rfl, rfl, rfl, ?_⟩
  have h9 : (10 : Int).toNat = 9 + 1 := rfl
  unfold getAllGroupMessages
  rw [h9, getAllLoop_step_overflow bulkFirstRemote "WAG-team-1" 10 9 [] 0 []
    ⟨some 0, bulkPage⟩ (by decide) rfl (bulkPage_too_big bulkFirstRemote rfl _ rfl)]
  rfl

/-- C2 (the code at the failing input): page 0 is fetched successfully with
three messages, page 1 is fetched successfully with the 500000 messages of
`bulkPage`, and the fetch of page 2 fails with status 500 (`k = 2`,
`maxPages = 10`); `getAllGroupMessages` returns page 0 alone and never requests
page 2, not the concatenation of pages 0 and 1. -/
theorem getAllGroupMessages_loses_oversized_page_before_failure :
    (getGroupMessages bulkSecondRemote [] "WAG-team-1" 0).1 = Except.ok ⟨some 0, teamMessages⟩
      ∧ (getGroupMessages bulkSecondRemote (pageRequests "WAG-team-1" 1) "WAG-team-1" 1).1
        = Except.ok ⟨some 1, bulkPage⟩
      ∧ (getGroupMessages bulkSecondRemote (pageRequests "WAG-team-1" 2) "WAG-team-1" 2).1
        = Except.error (httpFailure 500)
      ∧ getAllGroupMessages bulkSecondRemote [] "WAG-team-1" 10
        = (Except.ok teamMessages,
            [Request.messages "WAG-team-1" 0, Request.messages "WAG-team-1" 1]) := by
  refine ⟨rfl, rfl, rfl, ?_⟩
  have h9 : (10 : Int).toNat = 8 + 1 + 1 := rfl
  unfold getAllGroupMessages
  rw [h9, getAllLoop_step_ok bulkSecondRemote "WAG-team-1" 10 (8 + 1) [] 0 []
      ⟨some 0, teamMessages⟩ (by decide) rfl (by decide) (by decide),
    getAllLoop_step_overflow bulkSecondRemote "WAG-team-1" 10 8 _ (0 + 1) _
      ⟨some 1, bulkPage⟩ (by decide) rfl (bulkPage_too_big bulkSecondRemote rfl _ rfl)]
  rfl

/-- C3 (the code at the failing input): the fetch of page 0 is rejected with
422, and `getAllGroupMessages` resolves with the empty list instead of
failing with that error. -/
theorem getAllGroupMessages_first_page_denied :
    getAllGroupMessages deniedRemote [] "WAG-team-1" 10
      = (Except.ok [], [Request.messages "WAG-team-1" 0]) := by
  rfl

/-- C4: for every `maxPages ≤ 0`, `getAllGroupMessages` returns the empty list
and leaves the trace unchanged: no remote call is issued. -/
theorem getAllGroupMessages_nonpositive_cap (R : Remote) (t : Trace) (groupUuid : String)
    (maxPages : Int) (h : maxPages ≤ 0) :
    getAllGroupMessages R t groupUuid maxPages = (Except.ok [], t) := by
  have h0 : maxPages.toNat = 0 := by omega
  unfold getAllGroupMessages
  rw [h0]
  rfl

theorem getAllGroupMessages_nonpositive_cap_witness :
    getAllGroupMessages teamRemote [Request.groups "+15551234567"] "WAG-team-1" (-3)
      = (Except.ok [], [Request.groups "+15551234567"]) :=
  getAllGroupMessages_nonpositive_cap teamRemote [Request.groups "+15551234567"] "WAG-team-1"
    (-3) (by decide)

/-- C5 (the code at the failing input): page 0 is fetched successfully and
holds the 500000 messages of `bulkPage`, and page 1 is fetched successfully and
holds two messages.  With `maxPages = 1`, `getAllGroupMessages` issues its one
request and returns the empty list, not page 0; with `maxPages = 2` it returns
the empty list after one request, not the concatenation of the two pages after
two requests. -/
theorem getAllGroupMessages_oversized_page_ends_walk :
    (getGroupMessages bulkFirstRemote [] "WAG-team-1" 0).1 = Except.ok ⟨some 0, bulkPage⟩
      ∧ bulkPage ≠ []
      ∧ (getGroupMessages bulkFirstRemote (pageRequests "WAG-team-1" 1) "WAG-team-1" 1).1
        = Except.ok ⟨some 1, moreMessages⟩
      ∧ moreMessages ≠ []
      ∧ getAllGroupMessages bulkFirstRemote [] "WAG-team-1" 1
        = (Except.ok [], [Request.messages "WAG-team-1" 0])
      ∧ getAllGroupMessages bulkFirstRemote [] "WAG-team-1" 2
        = (Except.ok [], [Request.messages "WAG-team-1" 0])
      ∧ (getAllGroupMessages bulkFirstRemote [] "WAG-team-1" 2).2.length = 1 := by
  have hone : getAllGroupMessages bulkFirstRemote [] "WAG-team-1" 1
      = (Except.ok [], [Request.messages "WAG-team-1" 0]) := by
    have h1 : (1 : Int).toNat = 0 + 1 := rfl
    unfold getAllGroupMessages
    rw [h1, getAllLoop_step_overflow bulkFirstRemote "WAG-team-1" 1 0 [] 0 []
      ⟨some 0, bulkPage⟩ (by decide) rfl (bulkPage_too_big bulkFirstRemote rfl _ rfl)]
    rfl
  have hrun : getAllGroupMessages bulkFirstRemote [] "WAG-team-1" 2
      = (Except.ok [], [Request.messages "WAG-team-1" 0]) := by
    have h2 : (2 : Int).toNat = 1 + 1 := rfl
    unfold getAllGroupMessages
    rw [h2, getAllLoop_step_overflow bulkFirstRemote "WAG-team-1" 2 1 [] 0 []
      ⟨some 0, bulkPage⟩ (by decide) rfl (bulkPage_too_big bulkFirstRemote rfl _ rfl)]
    rfl
  refine ⟨rfl, ?_, rfl, by decide, hone, hrun, by rw [hrun]; rfl⟩
  intro h
  have hlen := congrArg List.length h
  rw [bulkPage_length] at hlen
  exact absurd hlen (by decide)

/-! ## Lemmas on the search loop -/

/-- A trace that holds page requests only. -/
theorem listingOutcomes_pages (R : Remote) (d : Trace) :
    ∀ pre : Trace, (∀ r ∈ d, r.isGroups = false) → listingOutcomes R pre d = [] := by
  induction d with
  | nil => intro pre _; rfl
  | cons r d ih =>
    intro pre h
    cases r with
    | groups p => simpa [Request.isGroups] using h (Request.groups p) (List.mem_cons_self _ _)
    | messages u n =>
      rw [listingOutcomes]
      exact ih _ (fun x hx => h x (List.mem_cons_of_mem _ hx))

theorem listingOutcomes_append (R : Remote) (a b : Trace) :
    ∀ pre : Trace,
      listingOutcomes R pre (a ++ b) = listingOutcomes R pre a ++ listingOutcomes R (pre ++ a) b := by
  induction a with
  | nil => intro pre; simp [listingOutcomes]
  | cons r a ih =>
    intro pre
    cases r with
    | groups p =>
      have h := ih (pre ++ [Request.groups p])
      rw [List.append_assoc, List.singleton_append] at h
      rw [List.cons_append, listingOutcomes, listingOutcomes, h, List.cons_append]
    | messages u n =>
      have h := ih (pre ++ [Request.messages u n])
      rw [List.append_assoc, List.singleton_append] at h
      rw [List.cons_append, listingOutcomes, listingOutcomes, h]

theorem getAllLoop_trace (R : Remote) (u : String) (maxPages : Int) :
    ∀ (fuel : Nat) (t : Trace) (c : Nat) (acc : List Message),
      ∃ d, (getAllLoop R u maxPages fuel t c acc).2 = t ++ d ∧ ∀ r ∈ d, r.isGroups = false := by
  intro fuel
  induction fuel with
  | zero => intro t c acc; exact ⟨[], by simp [getAllLoop], by simp⟩
  | succ f ih =>
    intro t c acc
    have one : ∀ r ∈ [Request.messages u c], r.isGroups = false := by
      intro r hr
      rw [List.mem_singleton.mp hr]
      rfl
    by_cases hc : (c : Int) < maxPages
    · cases hg : (getGroupMessages R t u c).1 with
      | error e =>
        exact ⟨[Request.messages u c],
          by rw [getAllLoop_step_error R u maxPages f t c acc e hc hg], one⟩
      | ok r =>
        by_cases he : r.messages = []
        · exact ⟨[Request.messages u c],
            by rw [getAllLoop_step_empty R u maxPages f t c acc r hc hg he], one⟩
        · by_cases hfit : r.messages.length ≤ R.engine.argumentLimit
          · obtain ⟨d, hd, hp⟩ := ih (t ++ [Request.messages u c]) (c + 1) (acc ++ r.messages)
            refine ⟨Request.messages u c :: d, ?_, ?_⟩
            · rw [getAllLoop_step_ok R u maxPages f t c acc r hc hg he hfit, hd]
              simp
            · intro x hx
              rcases List.mem_cons.mp hx with h | h
              · rw [h]; rfl
              · exact hp x h
          · exact ⟨[Request.messages u c],
              by rw [getAllLoop_step_overflow R u maxPages f t c acc r hc hg hfit], one⟩
    · exact ⟨[], by rw [getAllLoop_done R u maxPages _ t c acc hc]; simp, by simp⟩

/-- The aggregator always resolves, and issues page requests only. -/
theorem getAllGroupMessages_resolves (R : Remote) (t : Trace) (u : String) (maxPages : Int) :
    ∃ messages d, getAllGroupMessages R t u maxPages = (Except.ok messages, t ++ d)
      ∧ ∀ r ∈ d, r.isGroups = false := by
  obtain ⟨d, hd, hp⟩ := getAllLoop_trace R u maxPages maxPages.toNat t 0 []
  exact ⟨(getAllLoop R u maxPages maxPages.toNat t 0 []).1, d, by
    unfold getAllGroupMessages
    simp only [hd], hp⟩

theorem processGroup_spec (R : Remote) (maxPages : Int) (p : String) (st : SearchState)
    (g : Group) :
    ∃ rec d, processGroup R maxPages p st g = ⟨st.allResults ++ [rec], st.errors, st.trace ++ d⟩
      ∧ rec.target = (some p, groupInfo g) ∧ ∀ r ∈ d, r.isGroups = false := by
  obtain ⟨messages, d, hrun, hp⟩ := getAllGroupMessages_resolves R st.trace g.uuid maxPages
  exact ⟨successRecord (some p) g messages, d, by
    unfold processGroup
    rw [hrun], rfl, hp⟩

theorem processGroups_spec (R : Remote) (maxPages : Int) (p : String) (gs : List Group) :
    ∀ st : SearchState, ∃ recs d,
      gs.foldl (processGroup R maxPages p) st = ⟨st.allResults ++ recs, st.errors, st.trace ++ d⟩
      ∧ recs.map ResultRecord.target = gs.map (fun g => (some p, groupInfo g))
      ∧ ∀ r ∈ d, r.isGroups = false := by
  induction gs with
  | nil => intro st; exact ⟨[], [], by simp, rfl, by simp⟩
  | cons g gs ih =>
    intro st
    obtain ⟨rec, d1, h1, ht, hp1⟩ := processGroup_spec R maxPages p st g
    obtain ⟨recs, d2, h2, hts, hp2⟩ := ih (processGroup R maxPages p st g)
    refine ⟨rec :: recs, d1 ++ d2, ?_, ?_, ?_⟩
    · rw [List.foldl_cons, h2, h1]
      simp
    · simp [ht, hts]
    · intro r hr
      rcases List.mem_append.mp hr with h | h
      · exact hp1 r h
      · exact hp2 r h

theorem selectGroups_nil (R : Remote) (groupTitle : Option String) :
    selectGroups R groupTitle [] = [] := by
  unfold selectGroups
  cases groupTitle with
  | none => rfl
  | some title => simp only []; split_ifs <;> rfl

/-- One iteration of the outer loop, read against the outcome of its listing. -/
theorem processNumber_spec (R : Remote) (groupTitle : Option String) (maxPages : Int)
    (st : SearchState) (p : String) :
    ∃ recs d,
      processNumber R groupTitle maxPages st p
        = ⟨st.allResults ++ recs,
            st.errors ++ (failureOf (p, (listGroups R st.trace p).1)).toList,
            st.trace ++ Request.groups p :: d⟩
      ∧ recs.map ResultRecord.target = pairsOf R groupTitle (p, (listGroups R st.trace p).1)
      ∧ ∀ r ∈ d, r.isGroups = false := by
  have ht := listGroups_trace R st.trace p
  rcases hl : listGroups R st.trace p with ⟨res, t'⟩
  rw [hl] at ht
  simp only at ht
  subst ht
  cases res with
  | error e =>
    exact ⟨[], [], by
      unfold processNumber
      rw [hl]
      simp [failureOf], rfl, by simp⟩
  | ok listed =>
    cases listed with
    | none =>
      exact ⟨[], [], by
        unfold processNumber
        rw [hl]
        simp [failureOf], rfl, by simp⟩
    | some groups =>
      by_cases h0 : groups.length = 0
      · have hnil : groups = [] := List.length_eq_zero.mp h0
        exact ⟨[], [], by
          unfold processNumber
          rw [hl]
          simp [failureOf, h0], by simp [pairsOf, hnil, selectGroups_nil], by simp⟩
      · by_cases h1 : (selectGroups R groupTitle groups).length = 0
        · exact ⟨[], [], by
            unfold processNumber
            rw [hl]
            simp [failureOf, h0, h1], by
            simp [pairsOf, List.length_eq_zero.mp h1], by simp⟩
        · obtain ⟨recs, d, hrun, htar, hp⟩ := processGroups_spec R maxPages p
            (selectGroups R groupTitle groups)
            { st with trace := st.trace ++ [Request.groups p] }
          exact ⟨recs, d, by
            unfold processNumber
            rw [hl]
            simp only [h0, h1, if_false]
            rw [hrun]
            simp [failureOf], by simpa [pairsOf] using htar, hp⟩

theorem listingOutcomes_step (R : Remote) (pre : Trace) (p : String) (d1 d2 : Trace)
    (hp : ∀ r ∈ d1, r.isGroups = false) :
    listingOutcomes R pre (Request.groups p :: d1 ++ d2)
      = (p, (listGroups R pre p).1) :: listingOutcomes R (pre ++ Request.groups p :: d1) d2 := by
  have h := listingOutcomes_append R d1 d2 (pre ++ [Request.groups p])
  rw [listingOutcomes_pages R d1 _ hp, List.nil_append, List.append_assoc,
    List.singleton_append] at h
  rw [List.cons_append, listingOutcomes, h]

/-- The whole outer loop, read against the listing outcomes of its own trace. -/
theorem searchLoop_spec (R : Remote) (groupTitle : Option String) (maxPages : Int)
    (numbers : List String) :
    ∀ st : SearchState, ∃ recs d,
      searchLoop R groupTitle maxPages st numbers
        = ⟨st.allResults ++ recs,
            st.errors ++ (listingOutcomes R st.trace d).filterMap failureOf,
            st.trace ++ d⟩
      ∧ (listingOutcomes R st.trace d).map Prod.fst = numbers
      ∧ recs.map ResultRecord.target
        = (listingOutcomes R st.trace d).flatMap (pairsOf R groupTitle)
      ∧ d.filter Request.isGroups = numbers.map Request.groups := by
  induction numbers with
  | nil => intro st; exact ⟨[], [], by simp [searchLoop, listingOutcomes], rfl, rfl, rfl⟩
  | cons p ps ih =>
    intro st
    obtain ⟨recs1, d1, h1, ht1, hp1⟩ := processNumber_spec R groupTitle maxPages st p
    obtain ⟨recs2, d2, h2, hn2, ht2, hg2⟩ := ih (processNumber R groupTitle maxPages st p)
    have hst : (processNumber R groupTitle maxPages st p).trace
        = st.trace ++ Request.groups p :: d1 := by rw [h1]
    have hfil : d1.filter Request.isGroups = [] := by
      rw [List.filter_eq_nil_iff]
      intro r hr
      simp [hp1 r hr]
    rw [hst] at h2 hn2 ht2
    refine ⟨recs1 ++ recs2, Request.groups p :: d1 ++ d2, ?_, ?_, ?_, ?_⟩
    · have e : searchLoop R groupTitle maxPages st (p :: ps)
          = searchLoop R groupTitle maxPages (processNumber R groupTitle maxPages st p) ps := rfl
      rw [e, h2, listingOutcomes_step R st.trace p d1 d2 hp1, h1]
      cases hf : failureOf (p, (listGroups R st.trace p).1) <;>
        simp [List.filterMap_cons, hf]
    · rw [listingOutcomes_step R st.trace p d1 d2 hp1, List.map_cons, hn2]
    · rw [listingOutcomes_step R st.trace p d1 d2 hp1, List.map_append, ht1, ht2,
        List.flatMap_cons]
    · rw [List.cons_append, List.filter_cons, List.filter_append, hfil, hg2]
      simp [Request.isGroups]

theorem issued_append (t d : Trace) : issued t (t ++ d) = d := by
  simp [issued]

theorem outcome_lengths (R : Remote) (groupTitle : Option String)
    (os : List (String × Except JsError (Option (List Group)))) :
    (os.flatMap (pairsOf R groupTitle)).length = (os.map (matchingCount R groupTitle)).sum
      ∧ (os.filterMap failureOf).length
        = os.countP listingFailed + os.countP listingWithoutData := by
  induction os with
  | nil => exact ⟨rfl, rfl⟩
  | cons o os ih =>
    obtain ⟨p, res⟩ := o
    cases res with
    | ok listed =>
      cases listed with
      | none =>
        simp [List.flatMap_cons, pairsOf, matchingCount, failureOf, listingFailed,
          listingWithoutData, ih.1, ih.2]
        omega
      | some gs =>
        simp [List.flatMap_cons, pairsOf, matchingCount, failureOf, listingFailed,
          listingWithoutData, ih.1, ih.2]
    | error e =>
      simp [List.flatMap_cons, pairsOf, matchingCount, failureOf, listingFailed,
        listingWithoutData, ih.1, ih.2]
      omega

/-! ## Making the numbers unique -/

theorem uniqueNumbers_snoc (l : List String) (x : String) :
    uniqueNumbers (l ++ [x]) = setAdd (uniqueNumbers l) x := by
  simp [uniqueNumbers, List.foldl_append]

theorem uniqueNumbers_mem (l : List String) : ∀ x, x ∈ uniqueNumbers l ↔ x ∈ l := by
  induction l using List.reverseRecOn with
  | nil => intro x; simp [uniqueNumbers]
  | append_singleton l a ih =>
    intro x
    rw [uniqueNumbers_snoc, setAdd]
    by_cases ha : a ∈ uniqueNumbers l
    · rw [if_pos ha, ih, List.mem_append, List.mem_singleton]
      constructor
      · exact Or.inl
      · rintro (h | h)
        · exact h
        · rw [h]; exact (ih a).mp ha
    · rw [if_neg ha, List.mem_append, List.mem_append, ih]

theorem uniqueNumbers_nodup (l : List String) : (uniqueNumbers l).Nodup := by
  induction l using List.reverseRecOn with
  | nil => simp [uniqueNumbers]
  | append_singleton l a ih =>
    rw [uniqueNumbers_snoc, setAdd]
    by_cases ha : a ∈ uniqueNumbers l
    · rw [if_pos ha]; exact ih
    · rw [if_neg ha]
      exact List.Nodup.append ih (List.nodup_singleton a) (by
        intro x hx hx'
        rw [List.mem_singleton.mp hx'] at hx
        exact ha hx)

theorem uniqueNumbers_order (l : List String) :
    ∀ x y, x ∈ l → y ∈ l →
      ((uniqueNumbers l).indexOf x < (uniqueNumbers l).indexOf y ↔ l.indexOf x < l.indexOf y) := by
  induction l using List.reverseRecOn with
  | nil => intro x y hx; simp at hx
  | append_singleton l a ih =>
    intro x y hx hy
    rw [uniqueNumbers_snoc, setAdd]
    by_cases ha : a ∈ uniqueNumbers l
    · have hal : a ∈ l := (uniqueNumbers_mem l a).mp ha
      have hx' : x ∈ l := by
        rcases List.mem_append.mp hx with h | h
        · exact h
        · rw [List.mem_singleton.mp h]; exact hal
      have hy' : y ∈ l := by
        rcases List.mem_append.mp hy with h | h
        · exact h
        · rw [List.mem_singleton.mp h]; exact hal
      rw [if_pos ha, List.indexOf_append_of_mem hx', List.indexOf_append_of_mem hy']
      exact ih x y hx' hy'
    · have hal : a ∉ l := fun h => ha ((uniqueNumbers_mem l a).mpr h)
      rw [if_neg ha]
      by_cases hxl : x ∈ l <;> by_cases hyl : y ∈ l
      · rw [List.indexOf_append_of_mem hxl, List.indexOf_append_of_mem hyl,
          List.indexOf_append_of_mem ((uniqueNumbers_mem l x).mpr hxl),
          List.indexOf_append_of_mem ((uniqueNumbers_mem l y).mpr hyl)]
        exact ih x y hxl hyl
      · have hya : y = a := by
          rcases List.mem_append.mp hy with h | h
          · exact absurd h hyl
          · exact List.mem_singleton.mp h
        subst hya
        rw [List.indexOf_append_of_mem hxl,
          List.indexOf_append_of_mem ((uniqueNumbers_mem l x).mpr hxl),
          List.indexOf_append_of_not_mem hal, List.indexOf_append_of_not_mem ha]
        have h1 := List.indexOf_lt_length.mpr hxl
        have h2 := List.indexOf_lt_length.mpr ((uniqueNumbers_mem l x).mpr hxl)
        constructor <;> intro _ <;> omega
      · have hxa : x = a := by
          rcases List.mem_append.mp hx with h | h
          · exact absurd h hxl
          · exact List.mem_singleton.mp h
        subst hxa
        rw [List.indexOf_append_of_mem hyl,
          List.indexOf_append_of_mem ((uniqueNumbers_mem l y).mpr hyl),
          List.indexOf_append_of_not_mem hal, List.indexOf_append_of_not_mem ha]
        have h1 := List.indexOf_lt_length.mpr hyl
        have h2 := List.indexOf_lt_length.mpr ((uniqueNumbers_mem l y).mpr hyl)
        constructor <;> intro _ <;> omega
      · have hxa : x = a := by
          rcases List.mem_append.mp hx with h | h
          · exact absurd h hxl
          · exact List.mem_singleton.mp h
        have hya : y = a := by
          rcases List.mem_append.mp hy with h | h
          · exact absurd h hyl
          · exact List.mem_singleton.mp h
        subst hxa
        subst hya
        simp

/-! ## The two arrays are only ever appended to -/

theorem processGroup_prepend (R : Remote) (maxPages : Int) (p : String)
    (a : List ResultRecord) (e : List NumberError) (st : SearchState) (g : Group) :
    processGroup R maxPages p (SearchState.prepend a e st) g
      = SearchState.prepend a e (processGroup R maxPages p st g) := by
  unfold processGroup
  simp only [SearchState.prepend]
  rcases getAllGroupMessages R st.trace g.uuid maxPages with ⟨res, t'⟩
  cases res <;> simp

theorem foldl_prepend {α : Type} (f : SearchState → α → SearchState)
    (a : List ResultRecord) (e : List NumberError)
    (hf : ∀ st x, f (SearchState.prepend a e st) x = SearchState.prepend a e (f st x))
    (l : List α) :
    ∀ st, l.foldl f (SearchState.prepend a e st) = SearchState.prepend a e (l.foldl f st) := by
  induction l with
  | nil => intro st; rfl
  | cons x l ih => intro st; rw [List.foldl_cons, hf, ih, List.foldl_cons]

theorem processNumber_prepend (R : Remote) (groupTitle : Option String) (maxPages : Int)
    (a : List ResultRecord) (e : List NumberError) (st : SearchState) (p : String) :
    processNumber R groupTitle maxPages (SearchState.prepend a e st) p
      = SearchState.prepend a e (processNumber R groupTitle maxPages st p) := by
  unfold processNumber
  have htr : (SearchState.prepend a e st).trace = st.trace := rfl
  rw [htr]
  rcases listGroups R st.trace p with ⟨res, t'⟩
  cases res with
  | error err => simp [SearchState.prepend]
  | ok listed =>
    cases listed with
    | none => simp [SearchState.prepend]
    | some groups =>
      simp only []
      split_ifs
      · rfl
      · rfl
      · exact foldl_prepend (processGroup R maxPages p) a e
          (processGroup_prepend R maxPages p a e) _ { st with trace := t' }

theorem searchLoop_prepend (R : Remote) (groupTitle : Option String) (maxPages : Int)
    (a : List ResultRecord) (e : List NumberError) (numbers : List String) (st : SearchState) :
    searchLoop R groupTitle maxPages (SearchState.prepend a e st) numbers
      = SearchState.prepend a e (searchLoop R groupTitle maxPages st numbers) :=
  foldl_prepend (processNumber R groupTitle maxPages) a e
    (processNumber_prepend R groupTitle maxPages a e) numbers st

/-- Entries pushed by the loop over `numbers` are about those numbers. -/
theorem searchLoop_about (R : Remote) (groupTitle : Option String) (maxPages : Int)
    (numbers : List String) (t : Trace) :
    (∀ x ∈ (searchLoop R groupTitle maxPages ⟨[], [], t⟩ numbers).errors,
        x.phoneNumber ∈ numbers)
      ∧ ∀ r ∈ (searchLoop R groupTitle maxPages ⟨[], [], t⟩ numbers).allResults,
          ∃ p ∈ numbers, r.phoneNumber = some p := by
  obtain ⟨recs, d, hrun, hn, ht, _⟩ := searchLoop_spec R groupTitle maxPages numbers ⟨[], [], t⟩
  rw [hrun]
  simp only [List.nil_append]
  constructor
  · intro x hx
    obtain ⟨o, ho, hox⟩ := List.mem_filterMap.mp hx
    have hmem : o.1 ∈ numbers := by
      rw [← hn]
      exact List.mem_map_of_mem Prod.fst ho
    obtain ⟨p, res⟩ := o
    cases res with
    | ok listed =>
      cases listed with
      | some gs => simp [failureOf] at hox
      | none =>
        simp only [failureOf, Option.some.injEq] at hox
        rw [← hox]
        exact hmem
    | error err =>
      simp only [failureOf, Option.some.injEq] at hox
      rw [← hox]
      exact hmem
  · intro r hr
    have hmem : r.target ∈ (listingOutcomes R t d).flatMap (pairsOf R groupTitle) := by
      rw [← ht]
      exact List.mem_map_of_mem ResultRecord.target hr
    obtain ⟨o, ho, hor⟩ := List.mem_flatMap.mp hmem
    have hmem1 : o.1 ∈ numbers := by
      rw [← hn]
      exact List.mem_map_of_mem Prod.fst ho
    obtain ⟨p, res⟩ := o
    cases res with
    | error err => simp [pairsOf] at hor
    | ok listed =>
      cases listed with
      | none => simp [pairsOf] at hor
      | some gs =>
        simp only [pairsOf, List.mem_map] at hor
        obtain ⟨g, _, hg⟩ := hor
        exact ⟨p, hmem1, by
          have := congrArg Prod.fst hg
          simpa [ResultRecord.target] using this.symm⟩

/-- Fuel beyond the pages left under the cap changes nothing: the loop never
stops for lack of fuel. -/
theorem getAllLoop_fuel (R : Remote) (u : String) (maxPages : Int) :
    ∀ (fuel : Nat) (t : Trace) (c : Nat) (acc : List Message),
      (maxPages - c).toNat ≤ fuel →
        getAllLoop R u maxPages (fuel + 1) t c acc = getAllLoop R u maxPages fuel t c acc := by
  intro fuel
  induction fuel with
  | zero =>
    intro t c acc h
    have hc : ¬ (c : Int) < maxPages := by omega
    rw [getAllLoop_done R u maxPages 1 t c acc hc, getAllLoop_done R u maxPages 0 t c acc hc]
  | succ f ih =>
    intro t c acc h
    by_cases hc : (c : Int) < maxPages
    · cases hg : (getGroupMessages R t u c).1 with
      | error e =>
        rw [getAllLoop_step_error R u maxPages (f + 1) t c acc e hc hg,
          getAllLoop_step_error R u maxPages f t c acc e hc hg]
      | ok r =>
        by_cases he : r.messages = []
        · rw [getAllLoop_step_empty R u maxPages (f + 1) t c acc r hc hg he,
            getAllLoop_step_empty R u maxPages f t c acc r hc hg he]
        · by_cases hfit : r.messages.length ≤ R.engine.argumentLimit
          · rw [getAllLoop_step_ok R u maxPages (f + 1) t c acc r hc hg he hfit,
              getAllLoop_step_ok R u maxPages f t c acc r hc hg he hfit]
            exact ih _ _ _ (by push_cast; omega)
          · rw [getAllLoop_step_overflow R u maxPages (f + 1) t c acc r hc hg hfit,
              getAllLoop_step_overflow R u maxPages f t c acc r hc hg hfit]
    · rw [getAllLoop_done R u maxPages _ t c acc hc, getAllLoop_done R u maxPages _ t c acc hc]

/-! ## Remotes that answer a request the same way at any time -/

theorem getGroupMessages_fst_congr (R : Remote) (t1 t2 : Trace) (u : String) (c : Nat)
    (h : R.messages t1 = R.messages t2) :
    (getGroupMessages R t1 u c).1 = (getGroupMessages R t2 u c).1 := by
  unfold getGroupMessages
  rw [h]
  cases R.messages t2 u c with
  | error e => simp only []; split_ifs <;> rfl
  | ok resp =>
    by_cases hs : resp.success = true
    · simp [hs]
    · simp only [hs]; simp only [Bool.false_eq_true, if_false]; split_ifs <;> rfl

theorem getAllLoop_fst_congr (R : Remote) (u : String) (maxPages : Int)
    (h : ∀ t1 t2, R.messages t1 = R.messages t2) :
    ∀ (fuel : Nat) (t1 t2 : Trace) (c : Nat) (acc : List Message),
      (getAllLoop R u maxPages fuel t1 c acc).1 = (getAllLoop R u maxPages fuel t2 c acc).1 := by
  intro fuel
  induction fuel with
  | zero => intro t1 t2 c acc; rfl
  | succ f ih =>
    intro t1 t2 c acc
    by_cases hc : (c : Int) < maxPages
    · have hcong := getGroupMessages_fst_congr R t1 t2 u c (h t1 t2)
      cases hg : (getGroupMessages R t1 u c).1 with
      | error e =>
        rw [getAllLoop_step_error R u maxPages f t1 c acc e hc hg,
          getAllLoop_step_error R u maxPages f t2 c acc e hc (hcong ▸ hg)]
      | ok r =>
        by_cases he : r.messages = []
        · rw [getAllLoop_step_empty R u maxPages f t1 c acc r hc hg he,
            getAllLoop_step_empty R u maxPages f t2 c acc r hc (hcong ▸ hg) he]
        · by_cases hfit : r.messages.length ≤ R.engine.argumentLimit
          · rw [getAllLoop_step_ok R u maxPages f t1 c acc r hc hg he hfit,
              getAllLoop_step_ok R u maxPages f t2 c acc r hc (hcong ▸ hg) he hfit]
            exact ih _ _ _ _
          · rw [getAllLoop_step_overflow R u maxPages f t1 c acc r hc hg hfit,
              getAllLoop_step_overflow R u maxPages f t2 c acc r hc (hcong ▸ hg) hfit]
    · rw [getAllLoop_done R u maxPages _ t1 c acc hc, getAllLoop_done R u maxPages _ t2 c acc hc]

theorem processGroup_congr (R : Remote) (maxPages : Int) (p : String)
    (h : ∀ t1 t2, R.messages t1 = R.messages t2) (s1 s2 : SearchState) (g : Group)
    (hr : s1.allResults = s2.allResults) (he : s1.errors = s2.errors) :
    (processGroup R maxPages p s1 g).allResults = (processGroup R maxPages p s2 g).allResults
      ∧ (processGroup R maxPages p s1 g).errors = (processGroup R maxPages p s2 g).errors := by
  have hc := getAllLoop_fst_congr R g.uuid maxPages h maxPages.toNat s1.trace s2.trace 0 []
  unfold processGroup getAllGroupMessages
  simp only [hc, hr, he]
  exact ⟨trivial, trivial⟩

theorem processGroups_congr (R : Remote) (maxPages : Int) (p : String)
    (h : ∀ t1 t2, R.messages t1 = R.messages t2) (gs : List Group) :
    ∀ s1 s2 : SearchState, s1.allResults = s2.allResults → s1.errors = s2.errors →
      (gs.foldl (processGroup R maxPages p) s1).allResults
          = (gs.foldl (processGroup R maxPages p) s2).allResults
        ∧ (gs.foldl (processGroup R maxPages p) s1).errors
          = (gs.foldl (processGroup R maxPages p) s2).errors := by
  induction gs with
  | nil => intro s1 s2 hr he; exact ⟨hr, he⟩
  | cons g gs ih =>
    intro s1 s2 hr he
    have hstep := processGroup_congr R maxPages p h s1 s2 g hr he
    exact ih _ _ hstep.1 hstep.2

theorem listGroups_fst_congr (R : Remote) (t1 t2 : Trace) (p : String)
    (h : R.groups t1 = R.groups t2) : (listGroups R t1 p).1 = (listGroups R t2 p).1 := by
  unfold listGroups
  rw [h]
  cases R.groups t2 p with
  | error e => rfl
  | ok resp => simp only []; split_ifs <;> rfl

theorem processNumber_congr (R : Remote) (groupTitle : Option String) (maxPages : Int)
    (h : ∀ t1 t2, R.groups t1 = R.groups t2 ∧ R.messages t1 = R.messages t2)
    (s1 s2 : SearchState) (p : String)
    (hr : s1.allResults = s2.allResults) (he : s1.errors = s2.errors) :
    (processNumber R groupTitle maxPages s1 p).allResults
        = (processNumber R groupTitle maxPages s2 p).allResults
      ∧ (processNumber R groupTitle maxPages s1 p).errors
        = (processNumber R groupTitle maxPages s2 p).errors := by
  have hl := listGroups_fst_congr R s1.trace s2.trace p (h s1.trace s2.trace).1
  unfold processNumber
  rcases h1 : listGroups R s1.trace p with ⟨res1, u1⟩
  rcases h2 : listGroups R s2.trace p with ⟨res2, u2⟩
  rw [h1, h2] at hl
  simp only at hl
  subst hl
  cases res1 with
  | error err => exact ⟨hr, by simp [he]⟩
  | ok listed =>
    cases listed with
    | none => exact ⟨hr, by simp [he]⟩
    | some groups =>
      simp only []
      split_ifs
      · exact ⟨hr, he⟩
      · exact ⟨hr, he⟩
      · exact processGroups_congr R maxPages p (fun a b => (h a b).2) _ _ _ hr he

theorem searchLoop_congr (R : Remote) (groupTitle : Option String) (maxPages : Int)
    (h : ∀ t1 t2, R.groups t1 = R.groups t2 ∧ R.messages t1 = R.messages t2)
    (numbers : List String) :
    ∀ s1 s2 : SearchState, s1.allResults = s2.allResults → s1.errors = s2.errors →
      (searchLoop R groupTitle maxPages s1 numbers).allResults
          = (searchLoop R groupTitle maxPages s2 numbers).allResults
        ∧ (searchLoop R groupTitle maxPages s1 numbers).errors
          = (searchLoop R groupTitle maxPages s2 numbers).errors := by
  induction numbers with
  | nil => intro s1 s2 hr he; exact ⟨hr, he⟩
  | cons p ps ih =>
    intro s1 s2 hr he
    have hstep := processNumber_congr R groupTitle maxPages h s1 s2 p hr he
    exact ih _ _ hstep.1 hstep.2

/-! ## The multi-number search: `searchAllNumbers` -/

/-- C6 (the claim fails): against a remote whose listing payloads have the
success flag set and carry no `data` array, both listings of the run resolve,
none fails and none lists a group, yet `errors` receives one entry per number:
the two arrays hold 2 entries where the claim counts 0. -/
theorem searchAllRun_data_less_listing :
    listingOutcomes dataLessRemote []
        (issued [] (searchAllRun dataLessRemote scenarioController [] none 10).trace)
        = [("+15551234567", Except.ok none), ("+15557654321", Except.ok none)]
      ∧ (searchAllRun dataLessRemote scenarioController [] none 10).allResults = []
      ∧ (searchAllRun dataLessRemote scenarioController [] none 10).errors
        = [⟨"+15551234567", "Cannot read properties of undefined (reading 'length')"⟩,
           ⟨"+15557654321", "Cannot read properties of undefined (reading 'length')"⟩]
      ∧ (searchAllRun dataLessRemote scenarioController [] none 10).allResults.length
          + (searchAllRun dataLessRemote scenarioController [] none 10).errors.length
        ≠ ((listingOutcomes dataLessRemote []
              (issued [] (searchAllRun dataLessRemote scenarioController [] none 10).trace)).map
              (matchingCount dataLessRemote none)).sum
          + (listingOutcomes dataLessRemote []
              (issued [] (searchAllRun dataLessRemote scenarioController [] none 10).trace)).countP
              listingFailed :=
  ⟨rfl, rfl, rfl, by decide⟩

/-- C6 (amended): in every run of the search loop (any remote, any title
filter, any page cap) the listings requested are those of the distinct numbers,
and the number of `results` entries plus the number of `errors` entries equals
the number of (number, matching group) pairs of the listings that gave a group
list, plus the number of listings that failed, plus the number of listings that
resolved without a `data` array; the `errors` entries are exactly one per
listing that failed or resolved without a `data` array. -/
theorem searchAllRun_entry_count (R : Remote) (ctrl : ChatController) (t : Trace)
    (groupTitle : Option String) (maxPages : Int) :
    (listingOutcomes R t (issued t (searchAllRun R ctrl t groupTitle maxPages).trace)).map Prod.fst
        = uniqueNumbers ctrl.predefinedNumbers
      ∧ (searchAllRun R ctrl t groupTitle maxPages).allResults.length
          + (searchAllRun R ctrl t groupTitle maxPages).errors.length
        = ((listingOutcomes R t (issued t (searchAllRun R ctrl t groupTitle maxPages).trace)).map
              (matchingCount R groupTitle)).sum
          + ((listingOutcomes R t
                (issued t (searchAllRun R ctrl t groupTitle maxPages).trace)).countP listingFailed
            + (listingOutcomes R t
                (issued t (searchAllRun R ctrl t groupTitle maxPages).trace)).countP
                listingWithoutData)
      ∧ (searchAllRun R ctrl t groupTitle maxPages).errors.length
        = (listingOutcomes R t
              (issued t (searchAllRun R ctrl t groupTitle maxPages).trace)).countP listingFailed
          + (listingOutcomes R t
              (issued t (searchAllRun R ctrl t groupTitle maxPages).trace)).countP
              listingWithoutData
      ∧ (searchAllRun R ctrl t groupTitle maxPages).errors
        = (listingOutcomes R t
            (issued t (searchAllRun R ctrl t groupTitle maxPages).trace)).filterMap failureOf := by
  obtain ⟨recs, d, hrun, hn, ht, _⟩ :=
    searchLoop_spec R groupTitle maxPages (uniqueNumbers ctrl.predefinedNumbers) ⟨[], [], t⟩
  have hl := outcome_lengths R groupTitle (listingOutcomes R t d)
  have hrecs : recs.length
      = ((listingOutcomes R t d).map (matchingCount R groupTitle)).sum := by
    rw [← hl.1, ← ht, List.length_map]
  unfold searchAllRun
  rw [hrun]
  simp only [issued_append, List.nil_append]
  exact ⟨hn, by rw [hrecs, hl.2], hl.2, trivial⟩

/-- C7: when the listing of a number `n` of the unique list fails with error
`e`, the run records exactly one `errors` entry for `n`, namely
`{phoneNumber: n, error: e.message}`, records no `results` entry for `n`, and
its `results` and `errors` are those of the numbers before `n`, then that one
entry, then exactly what the loop over the later numbers alone produces when
started right after the failed call.  Against a remote that answers a request
the same way at any time, the run over the list without `n` has the same
`results`, and its `errors` are those of this run without that one entry. -/
theorem searchAllRun_listing_failure (R : Remote) (ctrl : ChatController) (t : Trace)
    (groupTitle : Option String) (maxPages : Int) (pre post : List String) (n : String)
    (e : JsError) (hsplit : uniqueNumbers ctrl.predefinedNumbers = pre ++ n :: post)
    (hfail : (listGroups R (searchLoop R groupTitle maxPages ⟨[], [], t⟩ pre).trace n).1
      = Except.error e) :
    (searchAllRun R ctrl t groupTitle maxPages).allResults
        = (searchLoop R groupTitle maxPages ⟨[], [], t⟩ pre).allResults
          ++ (searchLoop R groupTitle maxPages
              ⟨[], [], (searchLoop R groupTitle maxPages ⟨[], [], t⟩ pre).trace
                ++ [Request.groups n]⟩ post).allResults
      ∧ (searchAllRun R ctrl t groupTitle maxPages).errors
        = (searchLoop R groupTitle maxPages ⟨[], [], t⟩ pre).errors
          ++ ⟨n, e.message⟩ :: (searchLoop R groupTitle maxPages
              ⟨[], [], (searchLoop R groupTitle maxPages ⟨[], [], t⟩ pre).trace
                ++ [Request.groups n]⟩ post).errors
      ∧ (searchAllRun R ctrl t groupTitle maxPages).trace
        = (searchLoop R groupTitle maxPages
              ⟨[], [], (searchLoop R groupTitle maxPages ⟨[], [], t⟩ pre).trace
                ++ [Request.groups n]⟩ post).trace
      ∧ (searchAllRun R ctrl t groupTitle maxPages).errors.filter (fun x => x.phoneNumber = n)
        = [⟨n, e.message⟩]
      ∧ (searchAllRun R ctrl t groupTitle maxPages).allResults.filter
          (fun r => r.phoneNumber = some n) = []
      ∧ ((∀ t1 t2, R.groups t1 = R.groups t2 ∧ R.messages t1 = R.messages t2) →
          (searchLoop R groupTitle maxPages ⟨[], [], t⟩ (pre ++ post)).allResults
              = (searchAllRun R ctrl t groupTitle maxPages).allResults
            ∧ (searchLoop R groupTitle maxPages ⟨[], [], t⟩ (pre ++ post)).errors
              = (searchLoop R groupTitle maxPages ⟨[], [], t⟩ pre).errors
                ++ (searchLoop R groupTitle maxPages
                    ⟨[], [], (searchLoop R groupTitle maxPages ⟨[], [], t⟩ pre).trace
                      ++ [Request.groups n]⟩ post).errors) := by
  have hnd : (pre ++ n :: post).Nodup := hsplit ▸ uniqueNumbers_nodup ctrl.predefinedNumbers
  have hnpre : n ∉ pre := fun h =>
    (List.nodup_append.mp hnd).2.2 h (List.mem_cons_self n post)
  have hnpost : n ∉ post := (List.nodup_cons.mp (List.nodup_append.mp hnd).2.1).1
  have htr := listGroups_trace R (searchLoop R groupTitle maxPages ⟨[], [], t⟩ pre).trace n
  have hstep : processNumber R groupTitle maxPages
      (searchLoop R groupTitle maxPages ⟨[], [], t⟩ pre) n
      = SearchState.prepend (searchLoop R groupTitle maxPages ⟨[], [], t⟩ pre).allResults
          ((searchLoop R groupTitle maxPages ⟨[], [], t⟩ pre).errors ++ [⟨n, e.message⟩])
          ⟨[], [], (searchLoop R groupTitle maxPages ⟨[], [], t⟩ pre).trace
            ++ [Request.groups n]⟩ := by
    unfold processNumber
    rcases hl : listGroups R (searchLoop R groupTitle maxPages ⟨[], [], t⟩ pre).trace n
      with ⟨res, t'⟩
    rw [hl] at hfail htr
    simp only at hfail htr
    subst hfail htr
    simp [SearchState.prepend]
  have hout : searchAllRun R ctrl t groupTitle maxPages
      = SearchState.prepend (searchLoop R groupTitle maxPages ⟨[], [], t⟩ pre).allResults
          ((searchLoop R groupTitle maxPages ⟨[], [], t⟩ pre).errors ++ [⟨n, e.message⟩])
          (searchLoop R groupTitle maxPages
            ⟨[], [], (searchLoop R groupTitle maxPages ⟨[], [], t⟩ pre).trace
              ++ [Request.groups n]⟩ post) := by
    unfold searchAllRun
    rw [hsplit]
    have e1 : searchLoop R groupTitle maxPages ⟨[], [], t⟩ (pre ++ n :: post)
        = searchLoop R groupTitle maxPages
            (processNumber R groupTitle maxPages
              (searchLoop R groupTitle maxPages ⟨[], [], t⟩ pre) n) post := by
      simp [searchLoop, List.foldl_append]
    rw [e1, hstep, searchLoop_prepend]
  have hpre := searchLoop_about R groupTitle maxPages pre t
  have hpost := searchLoop_about R groupTitle maxPages post
    ((searchLoop R groupTitle maxPages ⟨[], [], t⟩ pre).trace ++ [Request.groups n])
  rw [hout]
  simp only [SearchState.prepend, List.append_assoc, List.singleton_append]
  refine ⟨trivial, trivial, trivial, ?_, ?_, ?_⟩
  · rw [List.filter_append, List.filter_cons]
    have h1 : (searchLoop R groupTitle maxPages ⟨[], [], t⟩ pre).errors.filter
        (fun x => x.phoneNumber = n) = [] := by
      rw [List.filter_eq_nil_iff]
      intro x hx
      have := hpre.1 x hx
      simp only [decide_eq_true_eq]
      intro h
      exact hnpre (h ▸ this)
    have h2 : (searchLoop R groupTitle maxPages
        ⟨[], [], (searchLoop R groupTitle maxPages ⟨[], [], t⟩ pre).trace
          ++ [Request.groups n]⟩ post).errors.filter (fun x => x.phoneNumber = n) = [] := by
      rw [List.filter_eq_nil_iff]
      intro x hx
      have := hpost.1 x hx
      simp only [decide_eq_true_eq]
      intro h
      exact hnpost (h ▸ this)
    rw [h1, h2]
    simp
  · rw [List.filter_append, List.append_eq_nil]
    constructor
    · rw [List.filter_eq_nil_iff]
      intro r hr
      obtain ⟨p, hp, hrp⟩ := hpre.2 r hr
      simp only [decide_eq_true_eq, hrp, Option.some.injEq]
      intro h
      exact hnpre (h ▸ hp)
    · rw [List.filter_eq_nil_iff]
      intro r hr
      obtain ⟨p, hp, hrp⟩ := hpost.2 r hr
      simp only [decide_eq_true_eq, hrp, Option.some.injEq]
      intro h
      exact hnpost (h ▸ hp)
  · intro hinv
    have e2 : searchLoop R groupTitle maxPages ⟨[], [], t⟩ (pre ++ post)
        = searchLoop R groupTitle maxPages (searchLoop R groupTitle maxPages ⟨[], [], t⟩ pre)
            post := by
      simp [searchLoop, List.foldl_append]
    have hB : searchLoop R groupTitle maxPages (searchLoop R groupTitle maxPages ⟨[], [], t⟩ pre)
          post
        = SearchState.prepend (searchLoop R groupTitle maxPages ⟨[], [], t⟩ pre).allResults
            (searchLoop R groupTitle maxPages ⟨[], [], t⟩ pre).errors
            (searchLoop R groupTitle maxPages
              ⟨[], [], (searchLoop R groupTitle maxPages ⟨[], [], t⟩ pre).trace⟩ post) := by
      have h := searchLoop_prepend R groupTitle maxPages
        (searchLoop R groupTitle maxPages ⟨[], [], t⟩ pre).allResults
        (searchLoop R groupTitle maxPages ⟨[], [], t⟩ pre).errors post
        ⟨[], [], (searchLoop R groupTitle maxPages ⟨[], [], t⟩ pre).trace⟩
      simp only [SearchState.prepend, List.append_nil] at h
      exact h
    have hc := searchLoop_congr R groupTitle maxPages hinv post
      ⟨[], [], (searchLoop R groupTitle maxPages ⟨[], [], t⟩ pre).trace⟩
      ⟨[], [], (searchLoop R groupTitle maxPages ⟨[], [], t⟩ pre).trace ++ [Request.groups n]⟩
      rfl rfl
    rw [e2, hB]
    simp only [SearchState.prepend, hc.1, hc.2]
    exact ⟨trivial, trivial⟩

theorem searchAllRun_listing_failure_witness :
    (searchAllRun teamRemote failingFirstController [] (some "team") 10).allResults
        = (searchLoop teamRemote (some "team") 10 ⟨[], [], []⟩ []).allResults
          ++ (searchLoop teamRemote (some "team") 10
              ⟨[], [], (searchLoop teamRemote (some "team") 10 ⟨[], [], []⟩ []).trace
                ++ [Request.groups "+15557654321"]⟩ ["+15551234567"]).allResults
      ∧ (searchAllRun teamRemote failingFirstController [] (some "team") 10).errors
        = (searchLoop teamRemote (some "team") 10 ⟨[], [], []⟩ []).errors
          ++ ⟨"+15557654321", (httpFailure 401).message⟩ :: (searchLoop teamRemote (some "team") 10
              ⟨[], [], (searchLoop teamRemote (some "team") 10 ⟨[], [], []⟩ []).trace
                ++ [Request.groups "+15557654321"]⟩ ["+15551234567"]).errors
      ∧ (searchAllRun teamRemote failingFirstController [] (some "team") 10).trace
        = (searchLoop teamRemote (some "team") 10
              ⟨[], [], (searchLoop teamRemote (some "team") 10 ⟨[], [], []⟩ []).trace
                ++ [Request.groups "+15557654321"]⟩ ["+15551234567"]).trace
      ∧ (searchAllRun teamRemote failingFirstController [] (some "team") 10).errors.filter
          (fun x => x.phoneNumber = "+15557654321")
        = [⟨"+15557654321", (httpFailure 401).message⟩]
      ∧ (searchAllRun teamRemote failingFirstController [] (some "team") 10).allResults.filter
          (fun r => r.phoneNumber = some "+15557654321") = []
      ∧ ((∀ t1 t2, teamRemote.groups t1 = teamRemote.groups t2
            ∧ teamRemote.messages t1 = teamRemote.messages t2) →
          (searchLoop teamRemote (some "team") 10 ⟨[], [], []⟩ ([] ++ ["+15551234567"])).allResults
              = (searchAllRun teamRemote failingFirstController [] (some "team") 10).allResults
            ∧ (searchLoop teamRemote (some "team") 10 ⟨[], [], []⟩ ([] ++ ["+15551234567"])).errors
              = (searchLoop teamRemote (some "team") 10 ⟨[], [], []⟩ []).errors
                ++ (searchLoop teamRemote (some "team") 10
                    ⟨[], [], (searchLoop teamRemote (some "team") 10 ⟨[], [], []⟩ []).trace
                      ++ [Request.groups "+15557654321"]⟩ ["+15551234567"]).errors) :=
  searchAllRun_listing_failure teamRemote failingFirstController [] (some "team") 10
    [] ["+15551234567"] "+15557654321" (httpFailure 401) (by decide) rfl

/-- C8: whatever the remote answers and whatever the title filter and page cap,
`searchAllNumbers` without export answers with status 200 and `success: true`,
with a payload whose `results` and `errors` are the two arrays of the run, after
having requested the listing of every distinct number. -/
theorem searchAllNumbers_always_succeeds (H : Host) (R : Remote) (ctrl : ChatController)
    (t : Trace) (body : SearchAllBody) (hexp : body.exportParam = false) :
    ∃ data : SearchAllData,
      (searchAllNumbers H R ctrl t body).1 = ⟨200, true, some data, none, none⟩
        ∧ data.results
          = (searchAllRun R ctrl t body.groupTitle (body.maxPages.getD 10)).allResults
        ∧ data.errors = (searchAllRun R ctrl t body.groupTitle (body.maxPages.getD 10)).errors
        ∧ data.numbersSearched = (uniqueNumbers ctrl.predefinedNumbers).length
        ∧ (issued t (searchAllNumbers H R ctrl t body).2).filter Request.isGroups
          = (uniqueNumbers ctrl.predefinedNumbers).map Request.groups := by
  obtain ⟨recs, d, hrun, _, _, hg⟩ := searchLoop_spec R body.groupTitle (body.maxPages.getD 10)
    (uniqueNumbers ctrl.predefinedNumbers) ⟨[], [], t⟩
  have htrace : (searchAllRun R ctrl t body.groupTitle (body.maxPages.getD 10)).trace = t ++ d := by
    unfold searchAllRun
    rw [hrun]
  refine ⟨{ searchType := "all_numbers",
            numbersSearched := (uniqueNumbers ctrl.predefinedNumbers).length,
            numbersWithErrors :=
              (searchAllRun R ctrl t body.groupTitle (body.maxPages.getD 10)).errors.length,
            groupTitle := orDefault body.groupTitle "all groups",
            matchingGroupsCount :=
              (searchAllRun R ctrl t body.groupTitle (body.maxPages.getD 10)).allResults.length,
            results := (searchAllRun R ctrl t body.groupTitle (body.maxPages.getD 10)).allResults,
            errors := (searchAllRun R ctrl t body.groupTitle (body.maxPages.getD 10)).errors },
    ?_, rfl, rfl, rfl, ?_⟩
  · unfold searchAllNumbers
    simp only [hexp, Bool.false_eq_true, if_false]
  · unfold searchAllNumbers
    simp only [hexp, Bool.false_eq_true, if_false, htrace, issued_append]
    exact hg

theorem searchAllNumbers_always_succeeds_witness :
    ∃ data : SearchAllData,
      (searchAllNumbers localHost deniedRemote scenarioController []
          ⟨some "team", some 3, false⟩).1 = ⟨200, true, some data, none, none⟩
        ∧ data.results
          = (searchAllRun deniedRemote scenarioController []
              (SearchAllBody.mk (some "team") (some 3) false).groupTitle
              ((SearchAllBody.mk (some "team") (some 3) false).maxPages.getD 10)).allResults
        ∧ data.errors
          = (searchAllRun deniedRemote scenarioController []
              (SearchAllBody.mk (some "team") (some 3) false).groupTitle
              ((SearchAllBody.mk (some "team") (some 3) false).maxPages.getD 10)).errors
        ∧ data.numbersSearched = (uniqueNumbers scenarioController.predefinedNumbers).length
        ∧ (issued [] (searchAllNumbers localHost deniedRemote scenarioController []
              ⟨some "team", some 3, false⟩).2).filter Request.isGroups
          = (uniqueNumbers scenarioController.predefinedNumbers).map Request.groups :=
  searchAllNumbers_always_succeeds localHost deniedRemote scenarioController []
    ⟨some "team", some 3, false⟩ rfl

/-- C9: the `results` of a run are, in order, one record per matching group of
each listing that succeeded: the listings are those of the distinct numbers in
their order of first occurrence, and within one number the records follow the
order of the groups in the remote listing. -/
theorem searchAllRun_results_order (R : Remote) (ctrl : ChatController) (t : Trace)
    (groupTitle : Option String) (maxPages : Int) :
    (listingOutcomes R t (issued t (searchAllRun R ctrl t groupTitle maxPages).trace)).map Prod.fst
        = uniqueNumbers ctrl.predefinedNumbers
      ∧ (searchAllRun R ctrl t groupTitle maxPages).allResults.map ResultRecord.target
        = (listingOutcomes R t
            (issued t (searchAllRun R ctrl t groupTitle maxPages).trace)).flatMap
              (pairsOf R groupTitle) := by
  obtain ⟨recs, d, hrun, hn, ht, _⟩ :=
    searchLoop_spec R groupTitle maxPages (uniqueNumbers ctrl.predefinedNumbers) ⟨[], [], t⟩
  unfold searchAllRun
  rw [hrun]
  simp only [issued_append, List.nil_append]
  exact ⟨hn, ht⟩

/-- C10: the list `searchAllNumbers` iterates over has no duplicates, has
exactly the members of the input list, and orders them by first occurrence in
the input; the listings requested by a run are those of that list in order, so
each number of the input is listed exactly once and no other number is. -/
theorem uniqueNumbers_first_occurrences (R : Remote) (numbers : List String) (t : Trace)
    (groupTitle : Option String) (maxPages : Int) :
    (uniqueNumbers numbers).Nodup
      ∧ (∀ x, x ∈ uniqueNumbers numbers ↔ x ∈ numbers)
      ∧ (∀ x y, x ∈ numbers → y ∈ numbers →
          ((uniqueNumbers numbers).indexOf x < (uniqueNumbers numbers).indexOf y
            ↔ numbers.indexOf x < numbers.indexOf y))
      ∧ (issued t (searchAllRun R ⟨numbers⟩ t groupTitle maxPages).trace).filter Request.isGroups
          = (uniqueNumbers numbers).map Request.groups
      ∧ ∀ p, (issued t (searchAllRun R ⟨numbers⟩ t groupTitle maxPages).trace).count
          (Request.groups p) = if p ∈ numbers then 1 else 0 := by
  obtain ⟨recs, d, hrun, _, _, hg⟩ :=
    searchLoop_spec R groupTitle maxPages (uniqueNumbers numbers) ⟨[], [], t⟩
  have htrace : issued t (searchAllRun R ⟨numbers⟩ t groupTitle maxPages).trace = d := by
    unfold searchAllRun
    rw [hrun]
    exact issued_append t d
  refine ⟨uniqueNumbers_nodup numbers, uniqueNumbers_mem numbers, uniqueNumbers_order numbers,
    ?_, ?_⟩
  · rw [htrace]; exact hg
  · intro p
    rw [htrace]
    have h1 : d.count (Request.groups p) = (d.filter Request.isGroups).count (Request.groups p) :=
      (List.count_filter (by rfl)).symm
    have hinj : Function.Injective Request.groups := fun a b hab => by
      injection hab
    rw [h1, hg, List.count_map_of_injective _ _ hinj]
    by_cases hp : p ∈ numbers
    · rw [if_pos hp]
      exact List.count_eq_one_of_mem (uniqueNumbers_nodup numbers)
        ((uniqueNumbers_mem numbers p).mpr hp)
    · rw [if_neg hp]
      exact List.count_eq_zero_of_not_mem (fun h => hp ((uniqueNumbers_mem numbers p).mp h))

/-! ## Strings: substring test and the phone pattern -/

theorem includesChars_iff (needle : List Char) :
    ∀ hay : List Char, includesChars hay needle = true ↔ needle <:+: hay := by
  intro hay
  induction hay with
  | nil => simp [includesChars, List.infix_nil]
  | cons c cs ih =>
    rw [includesChars, Bool.or_eq_true, ih, List.isPrefixOf_iff_prefix, List.infix_cons_iff]

theorem includes_iff (s needle : String) :
    includes s needle = true ↔ needle.data <:+: s.data :=
  includesChars_iff needle.data s.data

theorem matchPieces_cons_iff (p : RegexPiece) (ps : List RegexPiece) (s : List Char) :
    matchPieces (p :: ps) s = true ↔
      ∃ n, p.min ≤ n ∧ n ≤ p.max ∧ n ≤ s.length ∧ (∀ c ∈ s.take n, p.accepts c = true)
        ∧ matchPieces ps (s.drop n) = true := by
  rw [matchPieces, List.any_eq_true]
  constructor
  · rintro ⟨n, hn, h⟩
    simp only [Bool.and_eq_true, decide_eq_true_eq, List.all_eq_true] at h
    exact ⟨n, h.1.1.1, Nat.lt_succ_iff.mp (List.mem_range.mp hn), h.1.1.2, h.1.2, h.2⟩
  · rintro ⟨n, h1, h2, h3, h4, h5⟩
    refine ⟨n, List.mem_range.mpr (Nat.lt_succ_iff.mpr h2), ?_⟩
    simp only [Bool.and_eq_true, decide_eq_true_eq, List.all_eq_true]
    exact ⟨⟨⟨h1, h3⟩, h4⟩, h5⟩

theorem matchPieces_one (f : Char → Bool) (ps : List RegexPiece) (s : List Char) :
    matchPieces (⟨f, 1, 1⟩ :: ps) s = true ↔
      ∃ c rest, s = c :: rest ∧ f c = true ∧ matchPieces ps rest = true := by
  rw [matchPieces_cons_iff]
  constructor
  · rintro ⟨n, h1, h2, h3, h4, h5⟩
    have hn : n = 1 := Nat.le_antisymm h2 h1
    subst hn
    cases s with
    | nil => simp at h3
    | cons c rest => exact ⟨c, rest, rfl, h4 c (by simp), by simpa using h5⟩
  · rintro ⟨c, rest, hs, hc, hrest⟩
    subst hs
    exact ⟨1, le_refl 1, le_refl 1, by simp, by simpa using hc, by simpa using hrest⟩

theorem matchPieces_last (f : Char → Bool) (a b : Nat) (s : List Char) :
    matchPieces [⟨f, a, b⟩] s = true ↔
      a ≤ s.length ∧ s.length ≤ b ∧ ∀ c ∈ s, f c = true := by
  rw [matchPieces_cons_iff]
  constructor
  · rintro ⟨n, h1, h2, h3, h4, h5⟩
    have hd : s.drop n = [] := by simpa [matchPieces] using h5
    have hle : s.length ≤ n := List.drop_eq_nil_iff.mp hd
    have hn : n = s.length := Nat.le_antisymm h3 hle
    subst hn
    rw [List.take_length] at h4
    exact ⟨h1, h2, h4⟩
  · rintro ⟨h1, h2, h3⟩
    refine ⟨s.length, h1, h2, le_refl _, ?_, ?_⟩
    · rw [List.take_length]; exact h3
    · simp [matchPieces]

/-! ## The title filter and the phone number check -/

theorem toLowerCase_empty (R : Remote) : R.engine.toLowerCase "" = "" := by
  rw [R.engine.toLowerCase_latin1 "" (fun c hc => absurd hc (List.not_mem_nil c))]
  rfl

theorem latin1ToLowerCase_eq_empty (s : String) : latin1ToLowerCase s = "" ↔ s = "" := by
  constructor
  · intro h
    exact String.ext (List.map_eq_nil_iff.mp (congrArg String.data h))
  · intro h
    subst h
    rfl

/-- On text of Basic Latin and Latin-1 characters the filter callback is
computed by `latin1ToLowerCase`, whatever the engine. -/
theorem matchesTitle_latin1 (R : Remote) (term name : String) (g : Group)
    (hg : g.wa_group_name = some name) (hname : ∀ c ∈ name.data, c.toNat < 256)
    (hterm : ∀ c ∈ term.data, c.toNat < 256) :
    matchesTitle R term g
      = (name != "" && includes (latin1ToLowerCase name) (latin1ToLowerCase term)) := by
  simp only [matchesTitle, hg]
  rw [R.engine.toLowerCase_latin1 name hname, R.engine.toLowerCase_latin1 term hterm]

/-- C11 (the claim fails for the empty term): with the empty string as title
`searchAllNumbers` applies no filter and keeps a group whose name is absent:
the response for the title `""` holds a record for the nameless group of the
listing. -/
theorem title_filter_empty_term :
    (searchAllNumbers localHost mixedRemote ⟨["+15551234567"]⟩ []
        ⟨some "", some 1, false⟩).1.data.map (fun d => d.results.map (fun r => r.group))
      = some [groupInfo teamGroup, groupInfo familyGroup, groupInfo namelessGroup]
      ∧ (groupInfo namelessGroup).name = none
      ∧ namelessGroup.wa_group_name = none
      ∧ selectGroups mixedRemote (some "") [teamGroup, familyGroup, namelessGroup]
        = [teamGroup, familyGroup, namelessGroup] :=
  ⟨rfl, rfl, rfl, rfl⟩

/-- C11 (amended): for every non-empty search term and on every engine, the
filter callback is false for a group without a name and otherwise true exactly
when the lower-cased term occurs in the lower-cased name; on text of Basic
Latin and Latin-1 characters the lower-casing is `latin1ToLower` letter by
letter, so the answer is the same for any two terms, and any two names, that
differ only in the case of such letters.  `searchAllNumbers` keeps exactly the
groups the callback accepts, and with an absent or empty term it keeps every
group.  The examples of the claim evaluate as stated, and a term in small
letters finds a name in capitals outside Basic Latin. -/
theorem title_filter_nonempty_term (R : Remote) (groupTitle : String) (groups : List Group)
    (hterm : groupTitle ≠ "") :
    (∀ g : Group, g.wa_group_name = none → matchesTitle R groupTitle g = false)
      ∧ (∀ (g : Group) (name : String), g.wa_group_name = some name →
          (matchesTitle R groupTitle g = true
            ↔ (R.engine.toLowerCase groupTitle).data <:+: (R.engine.toLowerCase name).data))
      ∧ (∀ (g : Group) (name : String), g.wa_group_name = some name →
          (∀ c ∈ name.data, c.toNat < 256) → (∀ c ∈ groupTitle.data, c.toNat < 256) →
          (matchesTitle R groupTitle g = true
            ↔ groupTitle.data.map latin1ToLower <:+: name.data.map latin1ToLower))
      ∧ (∀ (g g1 : Group) (name name1 term1 : String),
          g.wa_group_name = some name → g1.wa_group_name = some name1 →
          (∀ c ∈ name.data, c.toNat < 256) → (∀ c ∈ name1.data, c.toNat < 256) →
          (∀ c ∈ groupTitle.data, c.toNat < 256) → (∀ c ∈ term1.data, c.toNat < 256) →
          latin1ToLowerCase name1 = latin1ToLowerCase name →
          latin1ToLowerCase term1 = latin1ToLowerCase groupTitle →
          matchesTitle R term1 g1 = matchesTitle R groupTitle g)
      ∧ selectGroups R (some groupTitle) groups = groups.filter (matchesTitle R groupTitle)
      ∧ selectGroups R none groups = groups
      ∧ selectGroups R (some "") groups = groups
      ∧ matchesTitle R "family" familyGroup = true
      ∧ matchesTitle R "x" namelessGroup = false
      ∧ matchesTitle R "FAMILY CHAT" familyGroup = true
      ∧ matchesTitle R "école" schoolGroup = true
      ∧ matchesTitle R "ecole" schoolGroup = false := by
  have hiff : ∀ (g : Group) (name : String), g.wa_group_name = some name →
      (matchesTitle R groupTitle g = true
        ↔ (R.engine.toLowerCase groupTitle).data <:+: (R.engine.toLowerCase name).data) := by
    intro g name hg
    simp only [matchesTitle, hg, Bool.and_eq_true, includes_iff, bne_iff_ne, ne_eq]
    constructor
    · exact fun h => h.2
    · intro h
      refine ⟨?_, h⟩
      intro hname
      subst hname
      rw [toLowerCase_empty R] at h
      have hnil : (R.engine.toLowerCase groupTitle).data = [] := List.infix_nil.mp h
      exact hterm (R.engine.toLowerCase_eq_empty groupTitle (String.ext hnil))
  refine ⟨?_, hiff, ?_, ?_, ?_, rfl, rfl, ?_, ?_, ?_, ?_, ?_⟩
  · intro g hg
    simp [matchesTitle, hg]
  · intro g name hg hname hlatin
    rw [hiff g name hg, R.engine.toLowerCase_latin1 name hname,
      R.engine.toLowerCase_latin1 groupTitle hlatin]
    rfl
  · intro g g1 name name1 term1 hg hg1 hname hname1 hlatin hterm1 hn ht
    have hne : (name1 != "") = (name != "") := by
      have h1 := latin1ToLowerCase_eq_empty name1
      have h2 := latin1ToLowerCase_eq_empty name
      rw [hn] at h1
      by_cases he : name = ""
      · have he1 : name1 = "" := h1.mp (h2.mpr he)
        rw [he, he1]
      · have he1 : name1 ≠ "" := fun h => he (h2.mp (h1.mpr h))
        rw [bne_iff_ne.mpr he, bne_iff_ne.mpr he1]
    rw [matchesTitle_latin1 R term1 name1 g1 hg1 hname1 hterm1,
      matchesTitle_latin1 R groupTitle name g hg hname hlatin, hn, ht, hne]
  · simp [selectGroups, hterm]
  · exact (matchesTitle_latin1 R "family" "Family Chat" familyGroup rfl (by decide)
      (by decide)).trans (by decide)
  · rfl
  · exact (matchesTitle_latin1 R "FAMILY CHAT" "Family Chat" familyGroup rfl (by decide)
      (by decide)).trans (by decide)
  · exact (matchesTitle_latin1 R "école" "ÉCOLE Parents" schoolGroup rfl (by decide)
      (by decide)).trans (by decide)
  · exact (matchesTitle_latin1 R "ecole" "ÉCOLE Parents" schoolGroup rfl (by decide)
      (by decide)).trans (by decide)

theorem title_filter_nonempty_term_witness :
    (∀ g : Group, g.wa_group_name = none → matchesTitle mixedRemote "team" g = false)
      ∧ (∀ (g : Group) (name : String), g.wa_group_name = some name →
          (matchesTitle mixedRemote "team" g = true
            ↔ (mixedRemote.engine.toLowerCase "team").data
                <:+: (mixedRemote.engine.toLowerCase name).data))
      ∧ (∀ (g : Group) (name : String), g.wa_group_name = some name →
          (∀ c ∈ name.data, c.toNat < 256) → (∀ c ∈ "team".data, c.toNat < 256) →
          (matchesTitle mixedRemote "team" g = true
            ↔ "team".data.map latin1ToLower <:+: name.data.map latin1ToLower))
      ∧ (∀ (g g1 : Group) (name name1 term1 : String),
          g.wa_group_name = some name → g1.wa_group_name = some name1 →
          (∀ c ∈ name.data, c.toNat < 256) → (∀ c ∈ name1.data, c.toNat < 256) →
          (∀ c ∈ "team".data, c.toNat < 256) → (∀ c ∈ term1.data, c.toNat < 256) →
          latin1ToLowerCase name1 = latin1ToLowerCase name →
          latin1ToLowerCase term1 = latin1ToLowerCase "team" →
          matchesTitle mixedRemote term1 g1 = matchesTitle mixedRemote "team" g)
      ∧ selectGroups mixedRemote (some "team") [teamGroup, familyGroup, namelessGroup]
          = [teamGroup, familyGroup, namelessGroup].filter (matchesTitle mixedRemote "team")
      ∧ selectGroups mixedRemote none [teamGroup, familyGroup, namelessGroup]
          = [teamGroup, familyGroup, namelessGroup]
      ∧ selectGroups mixedRemote (some "") [teamGroup, familyGroup, namelessGroup]
          = [teamGroup, familyGroup, namelessGroup]
      ∧ matchesTitle mixedRemote "family" familyGroup = true
      ∧ matchesTitle mixedRemote "x" namelessGroup = false
      ∧ matchesTitle mixedRemote "FAMILY CHAT" familyGroup = true
      ∧ matchesTitle mixedRemote "école" schoolGroup = true
      ∧ matchesTitle mixedRemote "ecole" schoolGroup = false :=
  title_filter_nonempty_term mixedRemote "team" [teamGroup, familyGroup, namelessGroup]
    (by decide)

theorem phoneRegexTest_shape (s : String) :
    phoneRegexTest s = true ↔
      ∃ d rest, s.data = '+' :: d :: rest ∧ '1' ≤ d ∧ d ≤ '9'
        ∧ 1 ≤ rest.length ∧ rest.length ≤ 14 ∧ ∀ c ∈ rest, '0' ≤ c ∧ c ≤ '9' := by
  unfold phoneRegexTest phoneRegex
  rw [matchPieces_one]
  constructor
  · rintro ⟨c, rest, hs, hc, h⟩
    rw [matchPieces_one] at h
    obtain ⟨d, rest2, hs2, hd, h2⟩ := h
    rw [matchPieces_last] at h2
    subst hs2
    have hplus : c = '+' := by simpa using hc
    subst hplus
    simp only [Bool.and_eq_true, decide_eq_true_eq] at hd h2
    exact ⟨d, rest2, hs, hd.1, hd.2, h2.1, h2.2.1, h2.2.2⟩
  · rintro ⟨d, rest, hs, h1, h2, h3, h4, h5⟩
    refine ⟨'+', d :: rest, hs, by simp, ?_⟩
    rw [matchPieces_one]
    refine ⟨d, rest, rfl, by simp [h1, h2], ?_⟩
    rw [matchPieces_last]
    simp only [Bool.and_eq_true, decide_eq_true_eq]
    exact ⟨h3, h4, h5⟩

theorem phoneRegexTest_not_falsy (s : String) (h : phoneRegexTest s = true) :
    falsy (some s) = false := by
  obtain ⟨d, rest, hs, _⟩ := (phoneRegexTest_shape s).mp h
  have hne : s ≠ "" := by
    intro he
    rw [he] at hs
    simp at hs
  simp [falsy, hne]

/-- C12: the phone number check accepts a string exactly when it is `+`, then
one of the digits 1 to 9, then between 1 and 14 decimal digits, and nothing
else; a single digit, a leading zero, 16 digits, a letter and a trailing line
break are rejected, 2 and 15 digits are accepted. -/
theorem phoneRegexTest_iff (s : String) :
    (phoneRegexTest s = true ↔
        ∃ d rest, s.data = '+' :: d :: rest ∧ '1' ≤ d ∧ d ≤ '9'
          ∧ 1 ≤ rest.length ∧ rest.length ≤ 14 ∧ ∀ c ∈ rest, '0' ≤ c ∧ c ≤ '9')
      ∧ phoneRegexTest "+1234567890" = true
      ∧ phoneRegexTest "+12" = true
      ∧ phoneRegexTest "+123456789012345" = true
      ∧ phoneRegexTest "+1" = false
      ∧ phoneRegexTest "+0123456789" = false
      ∧ phoneRegexTest "+1234567890123456" = false
      ∧ phoneRegexTest "+12345a7890" = false
      ∧ phoneRegexTest "1234567890" = false
      ∧ phoneRegexTest "+1234567890\n" = false :=
  ⟨phoneRegexTest_shape s, by decide, by decide, by decide, by decide, by decide, by decide,
    by decide, by decide, by decide⟩

/-- C13: for every phone number that fails the pattern, the `listGroups` handler
and the `searchGroupsByTitle` handler (whatever the title, page cap and export
flag) answer with status 400 and `success: false`, and the trace is unchanged:
no remote call is issued. -/
theorem invalid_phone_rejected (H : Host) (R : Remote) (t : Trace) (phoneNumber : String)
    (groupTitle : Option String) (maxPages : Option Int) (exportParam : Bool)
    (hbad : phoneRegexTest phoneNumber = false) :
    (ChatController.listGroups R t (some phoneNumber)).1.status = 400
      ∧ (ChatController.listGroups R t (some phoneNumber)).1.success = false
      ∧ (ChatController.listGroups R t (some phoneNumber)).2 = t
      ∧ (ChatController.searchGroupsByTitle H R t
          ⟨some phoneNumber, groupTitle, maxPages, exportParam⟩).1.status = 400
      ∧ (ChatController.searchGroupsByTitle H R t
          ⟨some phoneNumber, groupTitle, maxPages, exportParam⟩).1.success = false
      ∧ (ChatController.searchGroupsByTitle H R t
          ⟨some phoneNumber, groupTitle, maxPages, exportParam⟩).2 = t := by
  have h1 : ChatController.listGroups R t (some phoneNumber)
      = (errorResponse 400 "Phone number is required", t)
      ∨ ChatController.listGroups R t (some phoneNumber)
        = (errorResponse 400
            "Invalid phone number format. Use international format (e.g., +1234567890)", t) := by
    unfold ChatController.listGroups
    by_cases hf : falsy (some phoneNumber) = true
    · left; simp [hf]
    · right; simp [hf, hbad]
  have h2 : ChatController.searchGroupsByTitle H R t
        ⟨some phoneNumber, groupTitle, maxPages, exportParam⟩
      = (errorResponse 400 "Phone number and group title are required", t)
      ∨ ChatController.searchGroupsByTitle H R t
          ⟨some phoneNumber, groupTitle, maxPages, exportParam⟩
        = (errorResponse 400
            "Invalid phone number format. Use international format (e.g., +1234567890)", t) := by
    unfold ChatController.searchGroupsByTitle
    by_cases hf : (falsy (some phoneNumber) || falsy groupTitle) = true
    · left; simp only [hf, if_true]
    · right; simp [hf, hbad]
  rcases h1 with h1 | h1 <;> rcases h2 with h2 | h2 <;> rw [h1, h2] <;>
    exact ⟨rfl, rfl, rfl, rfl, rfl, rfl⟩

theorem invalid_phone_rejected_witness :
    (ChatController.listGroups mixedRemote [] (some "+0123456789")).1.status = 400
      ∧ (ChatController.listGroups mixedRemote [] (some "+0123456789")).1.success = false
      ∧ (ChatController.listGroups mixedRemote [] (some "+0123456789")).2 = []
      ∧ (ChatController.searchGroupsByTitle localHost mixedRemote []
          ⟨some "+0123456789", some "team", some 2, true⟩).1.status = 400
      ∧ (ChatController.searchGroupsByTitle localHost mixedRemote []
          ⟨some "+0123456789", some "team", some 2, true⟩).1.success = false
      ∧ (ChatController.searchGroupsByTitle localHost mixedRemote []
          ⟨some "+0123456789", some "team", some 2, true⟩).2 = [] :=
  invalid_phone_rejected localHost mixedRemote [] "+0123456789" (some "team") (some 2) true
    (by decide)

/-- C14: the `errorType` of a group-level failure record depends on the error
message alone: a message containing `422` gives `ACCESS_DENIED`; otherwise one
containing `401` gives `AUTH_ERROR` (the kind AUTH); otherwise one containing
`404` gives `NOT_FOUND`; every other message gives `UNKNOWN_ERROR` (the kind
UNKNOWN). -/
theorem errorType_by_substring (message : String) :
    ("422".data <:+: message.data → errorType message = "ACCESS_DENIED")
      ∧ (¬ "422".data <:+: message.data → "401".data <:+: message.data →
          errorType message = "AUTH_ERROR")
      ∧ (¬ "422".data <:+: message.data → ¬ "401".data <:+: message.data →
          "404".data <:+: message.data → errorType message = "NOT_FOUND")
      ∧ (¬ "422".data <:+: message.data → ¬ "401".data <:+: message.data →
          ¬ "404".data <:+: message.data → errorType message = "UNKNOWN_ERROR")
      ∧ errorType "Authentication failed (401): Please check your API key" = "AUTH_ERROR"
      ∧ errorType "Request failed with status code 404, retried 422 times" = "ACCESS_DENIED"
      ∧ errorType "Request failed with status code 404" = "NOT_FOUND"
      ∧ errorType "socket hang up" = "UNKNOWN_ERROR" := by
  refine ⟨?_, ?_, ?_, ?_, by decide, by decide, by decide, by decide⟩
  · intro h
    simp [errorType, (includes_iff message "422").mpr h]
  · intro h1 h2
    have n1 : includes message "422" = false := by
      simpa using (not_congr (includes_iff message "422")).mpr h1
    simp [errorType, n1, (includes_iff message "401").mpr h2]
  · intro h1 h2 h3
    have n1 : includes message "422" = false := by
      simpa using (not_congr (includes_iff message "422")).mpr h1
    have n2 : includes message "401" = false := by
      simpa using (not_congr (includes_iff message "401")).mpr h2
    simp [errorType, n1, n2, (includes_iff message "404").mpr h3]
  · intro h1 h2 h3
    have n1 : includes message "422" = false := by
      simpa using (not_congr (includes_iff message "422")).mpr h1
    have n2 : includes message "401" = false := by
      simpa using (not_congr (includes_iff message "401")).mpr h2
    have n3 : includes message "404" = false := by
      simpa using (not_congr (includes_iff message "404")).mpr h3
    simp [errorType, n1, n2, n3]

/-- C15: when the call behind `getGroupMessages` is rejected with error `e`, the
error `getGroupMessages` raises is decided by `e.status`: 401 gives the
authentication error, 404 the not-found error, 403 the access-denied error,
422 the invalid-request error, each a new error with its own message, and for
every other status, or none, the original error `e` is raised unchanged. -/
theorem getGroupMessages_error_by_status (R : Remote) (t : Trace) (groupUuid : String)
    (pageNumber : Nat) (e : JsError) (hfail : R.messages t groupUuid pageNumber = Except.error e) :
    (e.status = some 401 → (getGroupMessages R t groupUuid pageNumber).1
        = Except.error ⟨"Authentication failed (401): Please check your API key", none⟩)
      ∧ (e.status = some 404 → (getGroupMessages R t groupUuid pageNumber).1
        = Except.error ⟨"Group not found (404): The group UUID '" ++ groupUuid
            ++ "' does not exist", none⟩)
      ∧ (e.status = some 403 → (getGroupMessages R t groupUuid pageNumber).1
        = Except.error
            ⟨"Access denied (403): You may not have permission to access this group's messages",
              none⟩)
      ∧ (e.status = some 422 → (getGroupMessages R t groupUuid pageNumber).1
        = Except.error ⟨"Invalid request (422): The group UUID '" ++ groupUuid
            ++ "' may be invalid or you may not have access to this group's messages", none⟩)
      ∧ (e.status ≠ some 401 → e.status ≠ some 404 → e.status ≠ some 403 →
          e.status ≠ some 422 →
          (getGroupMessages R t groupUuid pageNumber).1 = Except.error e) := by
  unfold getGroupMessages
  rw [hfail]
  refine ⟨?_, ?_, ?_, ?_, ?_⟩
  · intro h; simp [h]
  · intro h; simp [h]
  · intro h; simp [h]
  · intro h; simp [h]
  · intro h1 h2 h3 h4; simp [h1, h2, h3, h4]

theorem getGroupMessages_error_by_status_witness :
    ((httpFailure 401).status = some 401 →
        (getGroupMessages (rejectingRemote 401) [] "WAG-team-1" 0).1
        = Except.error ⟨"Authentication failed (401): Please check your API key", none⟩)
      ∧ ((httpFailure 401).status = some 404 →
        (getGroupMessages (rejectingRemote 401) [] "WAG-team-1" 0).1
        = Except.error ⟨"Group not found (404): The group UUID '" ++ "WAG-team-1"
            ++ "' does not exist", none⟩)
      ∧ ((httpFailure 401).status = some 403 →
        (getGroupMessages (rejectingRemote 401) [] "WAG-team-1" 0).1
        = Except.error
            ⟨"Access denied (403): You may not have permission to access this group's messages",
              none⟩)
      ∧ ((httpFailure 401).status = some 422 →
        (getGroupMessages (rejectingRemote 401) [] "WAG-team-1" 0).1
        = Except.error ⟨"Invalid request (422): The group UUID '" ++ "WAG-team-1"
            ++ "' may be invalid or you may not have access to this group's messages", none⟩)
      ∧ ((httpFailure 401).status ≠ some 401 → (httpFailure 401).status ≠ some 404 →
          (httpFailure 401).status ≠ some 403 → (httpFailure 401).status ≠ some 422 →
          (getGroupMessages (rejectingRemote 401) [] "WAG-team-1" 0).1
            = Except.error (httpFailure 401)) :=
  getGroupMessages_error_by_status (rejectingRemote 401) [] "WAG-team-1" 0 (httpFailure 401) rfl

/-- C16: `listGroups` returns exactly when the call succeeds with a payload
whose success flag is true, and what it returns is the payload's `data` (the
list of groups, or nothing when the payload carries no `data`); when
the call succeeds with the flag false it fails with the error `Failed to fetch
groups`; `getGroupMessages` likewise returns a page exactly for a payload whose
flag is true and fails with the error `API returned success: false - ...` for
one whose flag is false. -/
theorem success_flag_decides (R : Remote) (t : Trace) (phoneNumber groupUuid : String)
    (pageNumber : Nat) :
    (∀ groups, (listGroups R t phoneNumber).1 = Except.ok groups ↔
        ∃ resp, R.groups t phoneNumber = Except.ok resp ∧ resp.success = true
          ∧ resp.data = groups)
      ∧ (∀ resp, R.groups t phoneNumber = Except.ok resp → resp.success = false →
          (listGroups R t phoneNumber).1 = Except.error ⟨"Failed to fetch groups", none⟩)
      ∧ (∀ result, (getGroupMessages R t groupUuid pageNumber).1 = Except.ok result ↔
          ∃ resp, R.messages t groupUuid pageNumber = Except.ok resp ∧ resp.success = true
            ∧ result = ⟨resp.page_number, resp.messages.getD []⟩)
      ∧ (∀ resp, R.messages t groupUuid pageNumber = Except.ok resp → resp.success = false →
          (getGroupMessages R t groupUuid pageNumber).1
            = Except.error ⟨"API returned success: false - " ++ resp.text, none⟩)
      ∧ (listGroups refusingRemote [] "+15551234567").1
          = Except.error ⟨"Failed to fetch groups", none⟩
      ∧ (getGroupMessages refusingRemote [] "WAG-team-1" 0).1
          = Except.error ⟨"API returned success: false - \x7b\"success\":false\x7d", none⟩ := by
  refine ⟨?_, ?_, ?_, ?_, rfl, rfl⟩
  · intro groups
    unfold listGroups
    cases hg : R.groups t phoneNumber with
    | error e => simp
    | ok resp =>
      by_cases hs : resp.success = true
      · simp [hs]
      · simp [hs]
  · intro resp hr hs
    unfold listGroups
    rw [hr]
    simp [hs]
  · intro result
    unfold getGroupMessages
    cases hg : R.messages t groupUuid pageNumber with
    | error e =>
      simp only []
      split_ifs <;> simp
    | ok resp =>
      by_cases hs : resp.success = true
      · simp only [hs, if_true]
        constructor
        · intro h
          injection h with h
          exact ⟨resp, rfl, hs, h.symm⟩
        · rintro ⟨r, hr, _, hres⟩
          injection hr with hr
          rw [hres, hr]
      · have hf : resp.success = false := by simpa using hs
        simp only [hf, Bool.false_eq_true, if_false]
        constructor
        · intro h
          simp at h
        · rintro ⟨r, hr, hr1, _⟩
          injection hr with hr
          rw [← hr, hf] at hr1
          simp at hr1
  · intro resp hr hs
    unfold getGroupMessages
    rw [hr]
    simp [hs]

/-! ## Lemmas on the handlers -/

theorem foldl_invariant {α σ : Type} (f : σ → α → σ) (I : σ → Prop)
    (h : ∀ s x, I s → I (f s x)) : ∀ (l : List α) (s : σ), I s → I (l.foldl f s) := by
  intro l
  induction l with
  | nil => intro s hs; exact hs
  | cons x l ih => intro s hs; exact ih _ (h s x hs)

theorem successRecord_shape (p : Option String) (g : Group) (messages : List Message) :
    (successRecord p g messages).successShape = true
      ∧ (successRecord p g messages).failureShape = false := by
  simp [successRecord, ResultRecord.successShape, ResultRecord.failureShape]

theorem failureRecord_shape (p : Option String) (g : Group) (error : JsError) :
    (failureRecord p g error).successShape = false
      ∧ (failureRecord p g error).failureShape = true := by
  simp [failureRecord, ResultRecord.successShape, ResultRecord.failureShape]

theorem groupInfo_copied (p : Option String) (g : Group) (n : Option Nat)
    (ms : Option (List Message)) (e ty : Option String) :
    (ResultRecord.mk p (groupInfo g) n ms e ty).copiedFrom g :=
  ⟨rfl, rfl, rfl, rfl, rfl⟩

theorem processMatchingGroup_spec (R : Remote) (maxPages : Int) (st : List ResultRecord × Trace)
    (g : Group) :
    ∃ rec d, processMatchingGroup R maxPages st g = (st.1 ++ [rec], st.2 ++ d)
      ∧ rec.group = groupInfo g ∧ rec.successShape = true ∧ rec.failureShape = false := by
  obtain ⟨messages, d, hrun, _⟩ := getAllGroupMessages_resolves R st.2 g.uuid maxPages
  exact ⟨successRecord none g messages, d, by
    unfold processMatchingGroup
    rw [hrun], rfl, (successRecord_shape none g messages).1,
    (successRecord_shape none g messages).2⟩

theorem processMatchingGroups_spec (R : Remote) (maxPages : Int) (gs : List Group) :
    ∀ st : List ResultRecord × Trace, ∃ recs d,
      gs.foldl (processMatchingGroup R maxPages) st = (st.1 ++ recs, st.2 ++ d)
      ∧ recs.map (fun r => r.group) = gs.map groupInfo
      ∧ ∀ r ∈ recs, r.successShape = true ∧ r.failureShape = false := by
  induction gs with
  | nil => intro st; exact ⟨[], [], by simp, rfl, by simp⟩
  | cons g gs ih =>
    intro st
    obtain ⟨rec, d1, h1, hg, hs, hf⟩ := processMatchingGroup_spec R maxPages st g
    obtain ⟨recs, d2, h2, hgs, hall⟩ := ih (processMatchingGroup R maxPages st g)
    refine ⟨rec :: recs, d1 ++ d2, ?_, ?_, ?_⟩
    · rw [List.foldl_cons, h2, h1]
      simp
    · simp [hg, hgs]
    · intro r hr
      rcases List.mem_cons.mp hr with h | h
      · rw [h]; exact ⟨hs, hf⟩
      · exact hall r h

theorem processGroup_shapes (R : Remote) (maxPages : Int) (p : String) (st : SearchState)
    (g : Group)
    (h : ∀ r ∈ st.allResults, r.successShape = true ∧ r.failureShape = false) :
    ∀ r ∈ (processGroup R maxPages p st g).allResults,
      r.successShape = true ∧ r.failureShape = false := by
  obtain ⟨messages, d, hrun, _⟩ := getAllGroupMessages_resolves R st.trace g.uuid maxPages
  unfold processGroup
  rw [hrun]
  intro r hr
  rcases List.mem_append.mp hr with h1 | h1
  · exact h r h1
  · rw [List.mem_singleton.mp h1]
    exact successRecord_shape (some p) g messages

theorem processNumber_shapes (R : Remote) (groupTitle : Option String) (maxPages : Int)
    (st : SearchState) (p : String)
    (h : ∀ r ∈ st.allResults, r.successShape = true ∧ r.failureShape = false) :
    ∀ r ∈ (processNumber R groupTitle maxPages st p).allResults,
      r.successShape = true ∧ r.failureShape = false := by
  unfold processNumber
  rcases listGroups R st.trace p with ⟨res, t'⟩
  cases res with
  | error err => exact h
  | ok listed =>
    cases listed with
    | none => exact h
    | some groups =>
      simp only []
      split_ifs
      · exact h
      · exact h
      · exact foldl_invariant (processGroup R maxPages p)
          (fun s => ∀ r ∈ s.allResults, r.successShape = true ∧ r.failureShape = false)
          (fun s g hs => processGroup_shapes R maxPages p s g hs) _ _ h

theorem searchLoop_shapes (R : Remote) (groupTitle : Option String) (maxPages : Int)
    (numbers : List String) (t : Trace) :
    ∀ r ∈ (searchLoop R groupTitle maxPages ⟨[], [], t⟩ numbers).allResults,
      r.successShape = true ∧ r.failureShape = false :=
  foldl_invariant (processNumber R groupTitle maxPages)
    (fun s => ∀ r ∈ s.allResults, r.successShape = true ∧ r.failureShape = false)
    (fun s p hs => processNumber_shapes R groupTitle maxPages s p hs) numbers ⟨[], [], t⟩
    (by intro r hr; simp at hr)

/-- What `searchGroupsByTitle` answers once the number and the title passed
validation and the listing succeeded. -/
theorem searchGroupsByTitle_listed (H : Host) (R : Remote) (t : Trace) (phoneNumber : String)
    (groupTitle : String) (maxPages : Option Int) (exportParam : Bool) (groups : List Group)
    (hvalid : phoneRegexTest phoneNumber = true) (htitle : groupTitle ≠ "")
    (hlist : (TwoChat.listGroups R t phoneNumber).1 = Except.ok (some groups)) :
    (groups.filter (matchesTitle R groupTitle) = [] →
        ChatController.searchGroupsByTitle H R t
            ⟨some phoneNumber, some groupTitle, maxPages, exportParam⟩
          = (⟨200, true,
              some ⟨phoneNumber, groupTitle, none, none, some [],
                some "No groups found matching the title"⟩, none, none⟩,
            t ++ [Request.groups phoneNumber]))
      ∧ (groups.filter (matchesTitle R groupTitle) ≠ [] →
          ∃ results d,
            results.map (fun r => r.group)
                = (groups.filter (matchesTitle R groupTitle)).map groupInfo
              ∧ (∀ r ∈ results, r.successShape = true ∧ r.failureShape = false)
              ∧ ChatController.searchGroupsByTitle H R t
                  ⟨some phoneNumber, some groupTitle, maxPages, exportParam⟩
                = (if exportParam = true then
                    match exportSearch H groupTitle with
                    | .ok info =>
                      (⟨200, true,
                        some ⟨phoneNumber, groupTitle,
                          some (groups.filter (matchesTitle R groupTitle)).length, some results,
                          none, none⟩, none, some info⟩,
                        t ++ [Request.groups phoneNumber] ++ d)
                    | .error error =>
                      (errorResponse 500
                        (orDefault (some error.message)
                          "Failed to search groups and fetch chat history"),
                        t ++ [Request.groups phoneNumber] ++ d)
                  else
                    (⟨200, true,
                      some ⟨phoneNumber, groupTitle,
                        some (groups.filter (matchesTitle R groupTitle)).length, some results,
                        none, none⟩, none, none⟩,
                      t ++ [Request.groups phoneNumber] ++ d))) := by
  have hphone := phoneRegexTest_not_falsy phoneNumber hvalid
  have hfalsy : falsy (some groupTitle) = false := by simp [falsy, htitle]
  have ht := listGroups_trace R t phoneNumber
  rcases hl : TwoChat.listGroups R t phoneNumber with ⟨res, t'⟩
  rw [hl] at hlist ht
  simp only at hlist ht
  subst hlist ht
  constructor
  · intro hnil
    unfold ChatController.searchGroupsByTitle
    simp [hphone, hfalsy, hvalid, hl, hnil]
  · intro hne
    obtain ⟨recs, d, hrun, hmap, hall⟩ := processMatchingGroups_spec R (maxPages.getD 10)
      (groups.filter (matchesTitle R groupTitle)) ([], t ++ [Request.groups phoneNumber])
    have hlen : (groups.filter (matchesTitle R groupTitle)).length ≠ 0 := by
      rw [Ne, List.length_eq_zero]
      exact hne
    refine ⟨recs, d, hmap, hall, ?_⟩
    unfold ChatController.searchGroupsByTitle
    simp only [hphone, hfalsy, hvalid, hl, Bool.or_self, Bool.false_eq_true, if_false,
      Option.getD_some, Bool.not_true, hlen, hrun, List.nil_append]

theorem listGroups_handler_errors (R : Remote) (t : Trace) (p : Option String)
    (h : (ChatController.listGroups R t p).1.success = false) :
    ∃ msg, (ChatController.listGroups R t p).1 = errorResponse 400 msg
      ∨ (ChatController.listGroups R t p).1 = errorResponse 500 msg := by
  unfold ChatController.listGroups at h ⊢
  by_cases hf : falsy p = true
  · exact ⟨"Phone number is required", Or.inl (by simp only [hf, if_true])⟩
  · by_cases hv : phoneRegexTest (p.getD "") = true
    · simp only [hf, hv, Bool.false_eq_true, if_false, Bool.not_true] at h ⊢
      rcases hl : TwoChat.listGroups R t (p.getD "") with ⟨res, t'⟩
      rw [hl] at h
      cases res with
      | ok listed =>
        cases listed with
        | some groups => simp at h
        | none =>
          exact ⟨orDefault (some (undefinedProperty "length").message) "Failed to fetch groups",
            Or.inr rfl⟩
      | error e => exact ⟨orDefault (some e.message) "Failed to fetch groups", Or.inr rfl⟩
    · exact ⟨"Invalid phone number format. Use international format (e.g., +1234567890)",
        Or.inl (by simp [hf, hv])⟩

theorem searchGroupsByTitle_errors (H : Host) (R : Remote) (t : Trace) (b : SearchBody)
    (h : (ChatController.searchGroupsByTitle H R t b).1.success = false) :
    ∃ msg, (ChatController.searchGroupsByTitle H R t b).1 = errorResponse 400 msg
      ∨ (ChatController.searchGroupsByTitle H R t b).1 = errorResponse 500 msg := by
  unfold ChatController.searchGroupsByTitle at h ⊢
  by_cases hf : (falsy b.phoneNumber || falsy b.groupTitle) = true
  · exact ⟨"Phone number and group title are required", Or.inl (by simp only [hf, if_true])⟩
  · by_cases hv : phoneRegexTest (b.phoneNumber.getD "") = true
    · simp only [hf, hv, Bool.false_eq_true, if_false, Bool.not_true] at h ⊢
      rcases hl : TwoChat.listGroups R t (b.phoneNumber.getD "") with ⟨res, t'⟩
      rw [hl] at h
      cases res with
      | error e =>
        exact ⟨orDefault (some e.message) "Failed to search groups and fetch chat history",
          Or.inr rfl⟩
      | ok listed =>
        cases listed with
        | none =>
          exact ⟨orDefault (some (undefinedProperty "filter").message)
            "Failed to search groups and fetch chat history", Or.inr rfl⟩
        | some groups =>
          simp only [] at h ⊢
          by_cases h0 : (groups.filter (matchesTitle R (b.groupTitle.getD ""))).length = 0
          · simp [h0] at h
          · simp only [h0, if_false] at h ⊢
            by_cases hx : b.exportParam = true
            · simp only [hx, if_true] at h ⊢
              cases hexp : exportSearch H (b.groupTitle.getD "") with
              | ok info => rw [hexp] at h; simp at h
              | error e =>
                exact ⟨orDefault (some e.message)
                  "Failed to search groups and fetch chat history", Or.inr rfl⟩
            · simp [hx] at h
    · exact ⟨"Invalid phone number format. Use international format (e.g., +1234567890)",
        Or.inl (by simp [hf, hv])⟩

theorem searchAllNumbers_errors (H : Host) (R : Remote) (ctrl : ChatController) (t : Trace)
    (b : SearchAllBody) (h : (searchAllNumbers H R ctrl t b).1.success = false) :
    ∃ msg, (searchAllNumbers H R ctrl t b).1 = errorResponse 500 msg := by
  unfold searchAllNumbers at h ⊢
  by_cases hx : b.exportParam = true
  · simp only [hx, if_true] at h ⊢
    cases hexp : exportSearchAll H b.groupTitle with
    | ok info => rw [hexp] at h; simp at h
    | error e => exact ⟨orDefault (some e.message) "Failed to search all numbers", rfl⟩
  · simp [hx] at h

theorem searchGroupsByTitle_success_inv (H : Host) (R : Remote) (t : Trace) (b : SearchBody)
    (h : (ChatController.searchGroupsByTitle H R t b).1.success = true) :
    falsy b.phoneNumber = false ∧ falsy b.groupTitle = false
      ∧ phoneRegexTest (b.phoneNumber.getD "") = true
      ∧ ∃ groups, (TwoChat.listGroups R t (b.phoneNumber.getD "")).1 = Except.ok (some groups) := by
  unfold ChatController.searchGroupsByTitle at h
  by_cases hf : (falsy b.phoneNumber || falsy b.groupTitle) = true
  · simp [hf, errorResponse] at h
  · by_cases hv : phoneRegexTest (b.phoneNumber.getD "") = true
    · simp only [hf, hv, Bool.false_eq_true, if_false, Bool.not_true] at h
      have hf2 : falsy b.phoneNumber = false ∧ falsy b.groupTitle = false := by
        simpa using hf
      refine ⟨hf2.1, hf2.2, hv, ?_⟩
      rcases hl : TwoChat.listGroups R t (b.phoneNumber.getD "") with ⟨res, t'⟩
      rw [hl] at h
      cases res with
      | error e => simp [errorResponse] at h
      | ok listed =>
        cases listed with
        | none => simp [errorResponse] at h
        | some groups => exact ⟨groups, rfl⟩
    · simp [hf, hv, errorResponse] at h

theorem copiedFrom_of_group (r : ResultRecord) (g : Group) (h : r.group = groupInfo g) :
    r.copiedFrom g := by
  unfold ResultRecord.copiedFrom
  rw [h]
  exact ⟨rfl, rfl, rfl, rfl, rfl⟩

/-! ## The responses of the handlers -/

/-- C17 (the claim fails): the listing behind the `listGroups` handler is
rejected with status 401, 403, 404 or 422, and the handler answers with status
500 each time; so does `searchGroupsByTitle`. -/
theorem remote_status_not_forwarded :
    (ChatController.listGroups (rejectingRemote 401) [] (some "+15551234567")).1.status = 500
      ∧ (ChatController.listGroups (rejectingRemote 403) [] (some "+15551234567")).1.status = 500
      ∧ (ChatController.listGroups (rejectingRemote 404) [] (some "+15551234567")).1.status = 500
      ∧ (ChatController.listGroups (rejectingRemote 422) [] (some "+15551234567")).1.status = 500
      ∧ (ChatController.searchGroupsByTitle localHost (rejectingRemote 401) []
          ⟨some "+15551234567", some "team", none, false⟩).1.status = 500
      ∧ (ChatController.listGroups (rejectingRemote 401) [] (some "+15551234567")).1.error
          = some "Request failed with status code 401" :=
  ⟨rfl, rfl, rfl, rfl, rfl, rfl⟩

/-- C17 (amended): every error response of the handlers `listGroups`,
`searchGroupsByTitle` and `searchAllNumbers` has the shape
`{success: false, error: <string>}` with status 400 or 500; when the listing
behind `listGroups` or `searchGroupsByTitle` fails with error `e`, whatever
status `e` carries, the response has status 500 and carries `e.message` (or a
fixed text when that is empty).  The remote status is forwarded only by the
middleware `errorHandler`, for an error that reaches it with a response
status. -/
theorem remote_failure_answers_500 (H : Host) (R : Remote) (t : Trace) (phoneNumber : String)
    (groupTitle : String) (maxPages : Option Int) (exportParam : Bool) (e : JsError)
    (hvalid : phoneRegexTest phoneNumber = true) (htitle : groupTitle ≠ "")
    (hfail : (TwoChat.listGroups R t phoneNumber).1 = Except.error e) :
    (ChatController.listGroups R t (some phoneNumber)).1
        = errorResponse 500 (orDefault (some e.message) "Failed to fetch groups")
      ∧ (ChatController.searchGroupsByTitle H R t
          ⟨some phoneNumber, some groupTitle, maxPages, exportParam⟩).1
        = errorResponse 500
            (orDefault (some e.message) "Failed to search groups and fetch chat history")
      ∧ (∀ p, (ChatController.listGroups R t p).1.success = false →
          ∃ msg, (ChatController.listGroups R t p).1 = errorResponse 400 msg
            ∨ (ChatController.listGroups R t p).1 = errorResponse 500 msg)
      ∧ (∀ b, (ChatController.searchGroupsByTitle H R t b).1.success = false →
          ∃ msg, (ChatController.searchGroupsByTitle H R t b).1 = errorResponse 400 msg
            ∨ (ChatController.searchGroupsByTitle H R t b).1 = errorResponse 500 msg)
      ∧ (∀ ctrl b, (searchAllNumbers H R ctrl t b).1.success = false →
          ∃ msg, (searchAllNumbers H R ctrl t b).1 = errorResponse 500 msg)
      ∧ (∀ (err : MiddlewareError) (st : Nat) (dataMessage : Option String),
          err.name ≠ "ValidationError" → err.name ≠ "UnauthorizedError" →
          err.code ≠ some "ENOTFOUND" → err.response = some ⟨some st, dataMessage⟩ → st ≠ 0 →
          errorHandler err = (st, ⟨false, orDefault dataMessage err.message, st⟩)) := by
  have hphone := phoneRegexTest_not_falsy phoneNumber hvalid
  have hfalsy : falsy (some groupTitle) = false := by simp [falsy, htitle]
  refine ⟨?_, ?_, listGroups_handler_errors R t, searchGroupsByTitle_errors H R t,
    fun ctrl b => searchAllNumbers_errors H R ctrl t b, ?_⟩
  · unfold ChatController.listGroups
    rcases hl : TwoChat.listGroups R t phoneNumber with ⟨res, t'⟩
    rw [hl] at hfail
    simp only at hfail
    subst hfail
    simp [hphone, hvalid, hl]
  · unfold ChatController.searchGroupsByTitle
    rcases hl : TwoChat.listGroups R t phoneNumber with ⟨res, t'⟩
    rw [hl] at hfail
    simp only at hfail
    subst hfail
    simp [hphone, hfalsy, hvalid, hl]
  · intro err st dm h1 h2 h3 h4 h5
    unfold errorHandler
    simp [h1, h2, h3, h4, h5]

theorem remote_failure_answers_500_witness :
    (ChatController.listGroups (rejectingRemote 404) [] (some "+15551234567")).1
        = errorResponse 500 (orDefault (some (httpFailure 404).message) "Failed to fetch groups")
      ∧ (ChatController.searchGroupsByTitle localHost (rejectingRemote 404) []
          ⟨some "+15551234567", some "team", some 2, true⟩).1
        = errorResponse 500
            (orDefault (some (httpFailure 404).message)
              "Failed to search groups and fetch chat history")
      ∧ (∀ p, (ChatController.listGroups (rejectingRemote 404) [] p).1.success = false →
          ∃ msg, (ChatController.listGroups (rejectingRemote 404) [] p).1 = errorResponse 400 msg
            ∨ (ChatController.listGroups (rejectingRemote 404) [] p).1 = errorResponse 500 msg)
      ∧ (∀ b, (ChatController.searchGroupsByTitle localHost (rejectingRemote 404) [] b).1.success
            = false →
          ∃ msg, (ChatController.searchGroupsByTitle localHost (rejectingRemote 404) [] b).1
              = errorResponse 400 msg
            ∨ (ChatController.searchGroupsByTitle localHost (rejectingRemote 404) [] b).1
              = errorResponse 500 msg)
      ∧ (∀ ctrl b, (searchAllNumbers localHost (rejectingRemote 404) ctrl [] b).1.success = false →
          ∃ msg, (searchAllNumbers localHost (rejectingRemote 404) ctrl [] b).1
            = errorResponse 500 msg)
      ∧ (∀ (err : MiddlewareError) (st : Nat) (dataMessage : Option String),
          err.name ≠ "ValidationError" → err.name ≠ "UnauthorizedError" →
          err.code ≠ some "ENOTFOUND" → err.response = some ⟨some st, dataMessage⟩ → st ≠ 0 →
          errorHandler err = (st, ⟨false, orDefault dataMessage err.message, st⟩)) :=
  remote_failure_answers_500 localHost (rejectingRemote 404) [] "+15551234567" "team" (some 2)
    true (httpFailure 404) (by decide) (by decide) rfl

/-- C18 (the claim fails when no group matches): the number is valid, the
listing succeeds and no group matches the title `sales`; the `data` of the
success response then holds `matchingGroups: []` and a message, and neither
`matchingGroupsCount` nor `results`. -/
theorem searchGroupsByTitle_no_match_data :
    (ChatController.searchGroupsByTitle localHost mixedRemote []
        ⟨some "+15551234567", some "sales", none, false⟩).1.data
      = some ⟨"+15551234567", "sales", none, none, some [],
          some "No groups found matching the title"⟩ :=
  rfl

/-- C18 (amended): for a valid phone number and a title for which the listing
succeeds and at least one group matches, the success response of
`searchGroupsByTitle` has status 200 and data `{phoneNumber, searchTerm,
matchingGroupsCount, results}` where `results` holds one record per matching
group in listing order and `matchingGroupsCount` is the length of `results`;
without export the response is always that success response.  When no group
matches, the response is a success whose data is `{phoneNumber, searchTerm,
matchingGroups: [], message}`. -/
theorem searchGroupsByTitle_success_data (H : Host) (R : Remote) (t : Trace)
    (phoneNumber groupTitle : String) (maxPages : Option Int) (exportParam : Bool)
    (groups : List Group) (hvalid : phoneRegexTest phoneNumber = true)
    (htitle : groupTitle ≠ "")
    (hlist : (TwoChat.listGroups R t phoneNumber).1 = Except.ok (some groups)) :
    (groups.filter (matchesTitle R groupTitle) ≠ [] →
        ∃ results : List ResultRecord,
          results.map (fun r => r.group) = (groups.filter (matchesTitle R groupTitle)).map groupInfo
            ∧ results.length = (groups.filter (matchesTitle R groupTitle)).length
            ∧ ((ChatController.searchGroupsByTitle H R t
                  ⟨some phoneNumber, some groupTitle, maxPages, exportParam⟩).1.success = true →
                (ChatController.searchGroupsByTitle H R t
                    ⟨some phoneNumber, some groupTitle, maxPages, exportParam⟩).1.status = 200
                  ∧ (ChatController.searchGroupsByTitle H R t
                      ⟨some phoneNumber, some groupTitle, maxPages, exportParam⟩).1.data
                    = some ⟨phoneNumber, groupTitle, some results.length, some results,
                        none, none⟩)
            ∧ (exportParam = false →
                (ChatController.searchGroupsByTitle H R t
                  ⟨some phoneNumber, some groupTitle, maxPages, exportParam⟩).1.success = true))
      ∧ (groups.filter (matchesTitle R groupTitle) = [] →
          (ChatController.searchGroupsByTitle H R t
              ⟨some phoneNumber, some groupTitle, maxPages, exportParam⟩).1
            = ⟨200, true,
                some ⟨phoneNumber, groupTitle, none, none, some [],
                  some "No groups found matching the title"⟩, none, none⟩) := by
  have hl := searchGroupsByTitle_listed H R t phoneNumber groupTitle maxPages exportParam groups
    hvalid htitle hlist
  constructor
  · intro hne
    obtain ⟨results, d, hmap, _, hresp⟩ := hl.2 hne
    have hlen : results.length = (groups.filter (matchesTitle R groupTitle)).length := by
      have := congrArg List.length hmap
      simpa using this
    refine ⟨results, hmap, hlen, ?_, ?_⟩
    · rw [hresp, hlen]
      cases exportParam with
      | false => intro _; exact ⟨rfl, rfl⟩
      | true =>
        simp only [if_true]
        cases exportSearch H groupTitle with
        | ok info => intro _; exact ⟨rfl, rfl⟩
        | error err => intro h; simp [errorResponse] at h
    · intro hx
      rw [hresp, hx]
      rfl
  · intro hnil
    rw [hl.1 hnil]

theorem searchGroupsByTitle_success_data_witness :
    ([teamGroup, familyGroup, namelessGroup].filter (matchesTitle mixedRemote "family") ≠ [] →
        ∃ results : List ResultRecord,
          results.map (fun r => r.group)
              = ([teamGroup, familyGroup, namelessGroup].filter (matchesTitle mixedRemote "family")).map
                  groupInfo
            ∧ results.length
              = ([teamGroup, familyGroup, namelessGroup].filter (matchesTitle mixedRemote "family")).length
            ∧ ((ChatController.searchGroupsByTitle localHost mixedRemote []
                  ⟨some "+15551234567", some "family", some 3, false⟩).1.success = true →
                (ChatController.searchGroupsByTitle localHost mixedRemote []
                    ⟨some "+15551234567", some "family", some 3, false⟩).1.status = 200
                  ∧ (ChatController.searchGroupsByTitle localHost mixedRemote []
                      ⟨some "+15551234567", some "family", some 3, false⟩).1.data
                    = some ⟨"+15551234567", "family", some results.length, some results,
                        none, none⟩)
            ∧ (false = false →
                (ChatController.searchGroupsByTitle localHost mixedRemote []
                  ⟨some "+15551234567", some "family", some 3, false⟩).1.success = true))
      ∧ ([teamGroup, familyGroup, namelessGroup].filter (matchesTitle mixedRemote "family") = [] →
          (ChatController.searchGroupsByTitle localHost mixedRemote []
              ⟨some "+15551234567", some "family", some 3, false⟩).1
            = ⟨200, true,
                some ⟨"+15551234567", "family", none, none, some [],
                  some "No groups found matching the title"⟩, none, none⟩) :=
  searchGroupsByTitle_success_data localHost mixedRemote [] "+15551234567" "family" (some 3)
    false [teamGroup, familyGroup, namelessGroup] (by decide) (by decide) rfl

/-- C19 (the claim fails): a search request with a valid phone number and no
`groupTitle` is answered with status 400 and `success: false`, and no remote
call is issued. -/
theorem search_without_title_rejected :
    ChatController.searchGroupsByTitle localHost mixedRemote []
        ⟨some "+15551234567", none, none, false⟩
      = (⟨400, false, none, some "Phone number and group title are required", none⟩, []) :=
  rfl

/-- C19 (amended): in `POST /api/chat/search` the `groupTitle` field is
required: every request whose `groupTitle` is absent or empty is answered with
status 400 and `{success: false, error: 'Phone number and group title are
required'}`, whatever the phone number, and no remote call is issued. -/
theorem searchGroupsByTitle_title_required (H : Host) (R : Remote) (t : Trace)
    (body : SearchBody) (htitle : falsy body.groupTitle = true) :
    ChatController.searchGroupsByTitle H R t body
      = (⟨400, false, none, some "Phone number and group title are required", none⟩, t) := by
  unfold ChatController.searchGroupsByTitle
  simp [htitle, errorResponse]

theorem searchGroupsByTitle_title_required_witness :
    ChatController.searchGroupsByTitle localHost mixedRemote [Request.groups "+15551234567"]
        ⟨some "+15551234567", some "", some 5, true⟩
      = (⟨400, false, none, some "Phone number and group title are required", none⟩,
          [Request.groups "+15551234567"]) :=
  searchGroupsByTitle_title_required localHost mixedRemote [Request.groups "+15551234567"]
    ⟨some "+15551234567", some "", some 5, true⟩ rfl

/-- C20: every record in the `results` of `searchAllNumbers` and of
`searchGroupsByTitle` has exactly one of the two shapes, the success shape
(`messages`, `messagesCount` equal to their length, no `error`, no
`errorType`) or the failure shape (`error`, `errorType`, no `messages`, no
`messagesCount`), and its group metadata is copied field by field from a group
of the listing that matches the title.  The record of the `try` branch has the
success shape and the record of the `catch` branch the failure shape, both
with the metadata of their group; in a run every record is in fact a success
record, the `catch` branch being out of reach of `getAllGroupMessages`. -/
theorem result_records_shape (H : Host) (R : Remote) (ctrl : ChatController) (t : Trace)
    (groupTitle : Option String) (maxPages : Int) (body : SearchBody) :
    (∀ r ∈ (searchAllRun R ctrl t groupTitle maxPages).allResults,
        ((r.successShape = true ∧ r.failureShape = false)
            ∨ (r.successShape = false ∧ r.failureShape = true))
          ∧ ∃ o ∈ listingOutcomes R t
              (issued t (searchAllRun R ctrl t groupTitle maxPages).trace),
              ∃ groups, o.2 = Except.ok (some groups)
                ∧ ∃ g ∈ selectGroups R groupTitle groups, r.copiedFrom g)
      ∧ (∀ data results, (ChatController.searchGroupsByTitle H R t body).1.data = some data →
          data.results = some results →
          ∀ r ∈ results,
            ((r.successShape = true ∧ r.failureShape = false)
                ∨ (r.successShape = false ∧ r.failureShape = true))
              ∧ ∃ groups,
                  (TwoChat.listGroups R t (body.phoneNumber.getD "")).1 = Except.ok (some groups)
                    ∧ ∃ g ∈ groups, matchesTitle R (body.groupTitle.getD "") g = true
                      ∧ r.copiedFrom g)
      ∧ ((ChatController.searchGroupsByTitle localHost mixedRemote []
            ⟨some "+15551234567", some "a", none, false⟩).1.data.bind
              (fun d => d.results)).map (fun rs => rs.map (fun r => r.group.uuid))
          = some ["WAG-team-1", "WAG-family-2"]
      ∧ (∀ (p : Option String) (g : Group) (messages : List Message),
          (successRecord p g messages).successShape = true
            ∧ (successRecord p g messages).failureShape = false
            ∧ (successRecord p g messages).copiedFrom g)
      ∧ (∀ (p : Option String) (g : Group) (error : JsError),
          (failureRecord p g error).successShape = false
            ∧ (failureRecord p g error).failureShape = true
            ∧ (failureRecord p g error).copiedFrom g)
      ∧ (∀ r ∈ (searchAllRun R ctrl t groupTitle maxPages).allResults, r.successShape = true)
      ∧ (∀ data results, (ChatController.searchGroupsByTitle H R t body).1.data = some data →
          data.results = some results → ∀ r ∈ results, r.successShape = true) := by
  have h1 : ∀ r ∈ (searchAllRun R ctrl t groupTitle maxPages).allResults,
      (r.successShape = true ∧ r.failureShape = false)
        ∧ ∃ o ∈ listingOutcomes R t
            (issued t (searchAllRun R ctrl t groupTitle maxPages).trace),
            ∃ groups, o.2 = Except.ok (some groups)
              ∧ ∃ g ∈ selectGroups R groupTitle groups, r.copiedFrom g := by
    obtain ⟨recs, d, hrun, _, ht, _⟩ :=
      searchLoop_spec R groupTitle maxPages (uniqueNumbers ctrl.predefinedNumbers) ⟨[], [], t⟩
    have hs := searchLoop_shapes R groupTitle maxPages (uniqueNumbers ctrl.predefinedNumbers) t
    unfold searchAllRun
    rw [hrun] at hs ⊢
    simp only [issued_append, List.nil_append] at hs ⊢
    intro r hr
    refine ⟨hs r hr, ?_⟩
    have hmem : r.target ∈ (listingOutcomes R t d).flatMap (pairsOf R groupTitle) := by
      rw [← ht]
      exact List.mem_map_of_mem ResultRecord.target hr
    obtain ⟨o, ho, hor⟩ := List.mem_flatMap.mp hmem
    refine ⟨o, ho, ?_⟩
    obtain ⟨p, res⟩ := o
    cases res with
    | error err => simp [pairsOf] at hor
    | ok listed =>
      cases listed with
      | none => simp [pairsOf] at hor
      | some gs =>
        simp only [pairsOf, List.mem_map] at hor
        obtain ⟨g, hg, hgr⟩ := hor
        exact ⟨gs, rfl, g, hg, copiedFrom_of_group r g (by
          have := congrArg Prod.snd hgr
          simpa [ResultRecord.target] using this.symm)⟩
  have h2 : ∀ data results, (ChatController.searchGroupsByTitle H R t body).1.data = some data →
      data.results = some results →
      ∀ r ∈ results,
        (r.successShape = true ∧ r.failureShape = false)
          ∧ ∃ groups,
              (TwoChat.listGroups R t (body.phoneNumber.getD "")).1 = Except.ok (some groups)
                ∧ ∃ g ∈ groups, matchesTitle R (body.groupTitle.getD "") g = true
                  ∧ r.copiedFrom g := by
    intro data results hdata hres r hr
    have hsucc : (ChatController.searchGroupsByTitle H R t body).1.success = true := by
      by_contra hne
      have hfalse : (ChatController.searchGroupsByTitle H R t body).1.success = false := by
        simpa using hne
      obtain ⟨msg, h400 | h500⟩ := searchGroupsByTitle_errors H R t body hfalse
      · rw [h400] at hdata; simp [errorResponse] at hdata
      · rw [h500] at hdata; simp [errorResponse] at hdata
    obtain ⟨hp, hti, hvalid, groups, hlist⟩ := searchGroupsByTitle_success_inv H R t body hsucc
    obtain ⟨pn, gt, mp, ex⟩ := body
    cases pn with
    | none => simp [falsy] at hp
    | some phone =>
      cases gt with
      | none => simp [falsy] at hti
      | some title =>
        simp only [Option.getD_some] at hvalid hlist ⊢
        have htitle : title ≠ "" := by
          intro he
          simp [falsy, he] at hti
        have hl := searchGroupsByTitle_listed H R t phone title mp ex groups hvalid htitle hlist
        by_cases hnil : groups.filter (matchesTitle R title) = []
        · rw [hl.1 hnil] at hdata
          simp only [Option.some.injEq] at hdata
          rw [← hdata] at hres
          simp at hres
        · obtain ⟨results0, d, hmap, hall, hresp⟩ := hl.2 hnil
          have hres0 : results = results0 := by
            rw [hresp] at hdata
            cases ex with
            | false =>
              simp only [Bool.false_eq_true, if_false, Option.some.injEq] at hdata
              rw [← hdata] at hres
              simpa using hres.symm
            | true =>
              simp only [if_true] at hdata
              cases hexp : exportSearch H title with
              | ok info =>
                rw [hexp] at hdata
                simp only [Option.some.injEq] at hdata
                rw [← hdata] at hres
                simpa using hres.symm
              | error err =>
                rw [hexp] at hdata
                simp [errorResponse] at hdata
          subst hres0
          refine ⟨hall r hr, groups, hlist, ?_⟩
          have hmem : r.group ∈ (groups.filter (matchesTitle R title)).map groupInfo := by
            rw [← hmap]
            exact List.mem_map_of_mem (fun r => r.group) hr
          obtain ⟨g, hg, hgr⟩ := List.mem_map.mp hmem
          have hg2 := List.mem_filter.mp hg
          exact ⟨g, hg2.1, hg2.2, copiedFrom_of_group r g hgr.symm⟩
  exact ⟨fun r hr => ⟨Or.inl (h1 r hr).1, (h1 r hr).2⟩,
    fun data results hd hres r hr =>
      ⟨Or.inl (h2 data results hd hres r hr).1, (h2 data results hd hres r hr).2⟩,
    rfl,
    fun p g messages => ⟨(successRecord_shape p g messages).1,
      (successRecord_shape p g messages).2, groupInfo_copied p g _ _ _ _⟩,
    fun p g error => ⟨(failureRecord_shape p g error).1, (failureRecord_shape p g error).2,
      groupInfo_copied p g _ _ _ _⟩,
    fun r hr => (h1 r hr).1.1,
    fun data results hd hres r hr => (h2 data results hd hres r hr).1.1⟩

/-! ## Which pages the loop requests -/

theorem getAllLoop_pages (R : Remote) (u : String) (maxPages : Int) :
    ∀ (fuel : Nat) (t : Trace) (c : Nat) (acc : List Message),
      ∃ n, n ≤ fuel
        ∧ (getAllLoop R u maxPages fuel t c acc).2
          = t ++ (List.range' c n).map (Request.messages u) := by
  intro fuel
  induction fuel with
  | zero => intro t c acc; exact ⟨0, le_refl 0, by simp [getAllLoop]⟩
  | succ f ih =>
    intro t c acc
    by_cases hc : (c : Int) < maxPages
    · cases hg : (getGroupMessages R t u c).1 with
      | error e =>
        exact ⟨1, by omega, by
          rw [getAllLoop_step_error R u maxPages f t c acc e hc hg]
          rfl⟩
      | ok r =>
        by_cases he : r.messages = []
        · exact ⟨1, by omega, by
            rw [getAllLoop_step_empty R u maxPages f t c acc r hc hg he]
            rfl⟩
        · by_cases hfit : r.messages.length ≤ R.engine.argumentLimit
          · obtain ⟨n, hn, hd⟩ := ih (t ++ [Request.messages u c]) (c + 1) (acc ++ r.messages)
            refine ⟨n + 1, by omega, ?_⟩
            rw [getAllLoop_step_ok R u maxPages f t c acc r hc hg he hfit, hd, List.range'_succ]
            simp
          · exact ⟨1, by omega, by
              rw [getAllLoop_step_overflow R u maxPages f t c acc r hc hg hfit]
              rfl⟩
    · exact ⟨0, by omega, by rw [getAllLoop_done R u maxPages _ t c acc hc]; simp⟩

theorem getAllLoop_fuel_add (R : Remote) (u : String) (maxPages : Int) (t : Trace) (c : Nat)
    (acc : List Message) (fuel : Nat) (h : (maxPages - c).toNat ≤ fuel) :
    ∀ extra : Nat,
      getAllLoop R u maxPages (fuel + extra) t c acc = getAllLoop R u maxPages fuel t c acc := by
  intro extra
  induction extra with
  | zero => rfl
  | succ k ih =>
    rw [← Nat.add_assoc, getAllLoop_fuel R u maxPages (fuel + k) t c acc (by omega), ih]

theorem successShape_no_error (r : ResultRecord) (h : r.successShape = true) :
    r.error = none ∧ r.errorType = none := by
  unfold ResultRecord.successShape at h
  cases hm : r.messages with
  | none => simp [hm] at h
  | some ms =>
    cases hc : r.messagesCount with
    | none => simp [hm, hc] at h
    | some n =>
      simp only [hm, hc, Bool.and_eq_true, Option.isNone_iff_eq_none] at h
      exact ⟨h.1.2, h.2⟩

/-! ## The page walk and the errors it meets -/

/-- C22 (the claim fails): in a run against a remote that rejects every page
request with status 403, the record of the group carries no `errorType` at
all: it is a success record with no messages; and the message of the error
`getGroupMessages` raises for status 403 is one the classification maps to
`UNKNOWN_ERROR`, not to `ACCESS_DENIED`. -/
theorem access_denied_403_not_classified :
    (searchAllRun (pageRejectingRemote 403) ⟨["+15551234567"]⟩ [] (some "team") 10).allResults
        = [successRecord (some "+15551234567") teamGroup []]
      ∧ (searchAllRun (pageRejectingRemote 403) ⟨["+15551234567"]⟩ [] (some "team")
          10).allResults.map (fun r => r.errorType) = [none]
      ∧ (getGroupMessages (pageRejectingRemote 403) [Request.groups "+15551234567"]
          "WAG-team-1" 0).1
        = Except.error
            ⟨"Access denied (403): You may not have permission to access this group's messages",
              none⟩
      ∧ errorType
          "Access denied (403): You may not have permission to access this group's messages"
        = "UNKNOWN_ERROR"
      ∧ errorType
          "Access denied (403): You may not have permission to access this group's messages"
        ≠ "ACCESS_DENIED" :=
  ⟨rfl, rfl, rfl, by decide, by decide⟩

/-- C22 (amended): for every remote, trace, group UUID and page, the error
`getGroupMessages` raises when the call is rejected with status 422 has a
message that the classification expression of the controllers maps to
`ACCESS_DENIED`, and the error it raises for status 403 has the message
`Access denied (403): ...`, which the expression maps to `UNKNOWN_ERROR`: the
expression looks for `422`, `401` and `404` only. -/
theorem page_error_classification (R : Remote) (t : Trace) (groupUuid : String)
    (pageNumber : Nat) (e : JsError)
    (hfail : R.messages t groupUuid pageNumber = Except.error e) :
    (e.status = some 422 →
        ∃ raised, (getGroupMessages R t groupUuid pageNumber).1 = Except.error raised
          ∧ raised.message = "Invalid request (422): The group UUID '" ++ groupUuid
              ++ "' may be invalid or you may not have access to this group's messages"
          ∧ errorType raised.message = "ACCESS_DENIED"
          ∧ ∀ p g, (failureRecord p g raised).errorType = some "ACCESS_DENIED")
      ∧ (e.status = some 403 →
          ∃ raised, (getGroupMessages R t groupUuid pageNumber).1 = Except.error raised
            ∧ raised.message
              = "Access denied (403): You may not have permission to access this group's messages"
            ∧ errorType raised.message = "UNKNOWN_ERROR"
            ∧ ∀ p g, (failureRecord p g raised).errorType = some "UNKNOWN_ERROR")
      ∧ (getGroupMessages (pageRejectingRemote 422) [] "WAG-team-1" 0).1
        = Except.error ⟨"Invalid request (422): The group UUID 'WAG-team-1' may be invalid or "
            ++ "you may not have access to this group's messages", none⟩
      ∧ errorType ("Invalid request (422): The group UUID 'WAG-team-1' may be invalid or "
            ++ "you may not have access to this group's messages") = "ACCESS_DENIED" := by
  have hin : "422".data <:+: ("Invalid request (422): The group UUID '" ++ groupUuid
      ++ "' may be invalid or you may not have access to this group's messages").data := by
    rw [String.data_append, String.data_append, List.append_assoc]
    exact List.IsInfix.trans (by decide) (List.prefix_append _ _).isInfix
  have h422 : errorType ("Invalid request (422): The group UUID '" ++ groupUuid
      ++ "' may be invalid or you may not have access to this group's messages")
      = "ACCESS_DENIED" := by
    simp [errorType, (includes_iff _ "422").mpr hin]
  have h403 : errorType
      "Access denied (403): You may not have permission to access this group's messages"
      = "UNKNOWN_ERROR" := by decide
  refine ⟨?_, ?_, rfl, by decide⟩
  · intro hs
    refine ⟨⟨"Invalid request (422): The group UUID '" ++ groupUuid
      ++ "' may be invalid or you may not have access to this group's messages", none⟩,
      ?_, rfl, h422, ?_⟩
    · unfold getGroupMessages
      simp only [hfail, hs, if_true]
    · intro p g
      simp only [failureRecord, h422]
  · intro hs
    refine ⟨⟨"Access denied (403): You may not have permission to access this group's messages",
      none⟩, ?_, rfl, h403, ?_⟩
    · unfold getGroupMessages
      simp [hfail, hs]
    · intro p g
      simp only [failureRecord, h403]

theorem page_error_classification_witness :
    ((httpFailure 403).status = some 422 →
        ∃ raised, (getGroupMessages (pageRejectingRemote 403) [] "WAG-team-1" 0).1
            = Except.error raised
          ∧ raised.message = "Invalid request (422): The group UUID '" ++ "WAG-team-1"
              ++ "' may be invalid or you may not have access to this group's messages"
          ∧ errorType raised.message = "ACCESS_DENIED"
          ∧ ∀ p g, (failureRecord p g raised).errorType = some "ACCESS_DENIED")
      ∧ ((httpFailure 403).status = some 403 →
          ∃ raised, (getGroupMessages (pageRejectingRemote 403) [] "WAG-team-1" 0).1
              = Except.error raised
            ∧ raised.message
              = "Access denied (403): You may not have permission to access this group's messages"
            ∧ errorType raised.message = "UNKNOWN_ERROR"
            ∧ ∀ p g, (failureRecord p g raised).errorType = some "UNKNOWN_ERROR")
      ∧ (getGroupMessages (pageRejectingRemote 422) [] "WAG-team-1" 0).1
        = Except.error ⟨"Invalid request (422): The group UUID 'WAG-team-1' may be invalid or "
            ++ "you may not have access to this group's messages", none⟩
      ∧ errorType ("Invalid request (422): The group UUID 'WAG-team-1' may be invalid or "
            ++ "you may not have access to this group's messages") = "ACCESS_DENIED" :=
  page_error_classification (pageRejectingRemote 403) [] "WAG-team-1" 0 (httpFailure 403) rfl

/-- C23 (the code at the failing input): in a run against a remote that
rejects every page request with status 404, and in one against a remote that
rejects them with status 401, the record of the group is a success record with
no messages, `messagesCount` 0 and no `errorType`, in `searchAllNumbers` and in
`searchGroupsByTitle` alike: the error `getGroupMessages` raised, whose
message `getGroupMessages` built for that status, is swallowed by
`getAllGroupMessages` and never classified. -/
theorem page_failure_404_401_unclassified :
    (searchAllRun (pageRejectingRemote 404) ⟨["+15551234567"]⟩ [] (some "team") 10).allResults
        = [successRecord (some "+15551234567") teamGroup []]
      ∧ (searchAllRun (pageRejectingRemote 401) ⟨["+15551234567"]⟩ [] (some "team")
          10).allResults
        = [successRecord (some "+15551234567") teamGroup []]
      ∧ (successRecord (some "+15551234567") teamGroup []).errorType = none
      ∧ (successRecord (some "+15551234567") teamGroup []).messagesCount = some 0
      ∧ ((ChatController.searchGroupsByTitle localHost (pageRejectingRemote 404) []
            ⟨some "+15551234567", some "team", none, false⟩).1.data.bind
              (fun d => d.results)) = some [successRecord none teamGroup []]
      ∧ ((ChatController.searchGroupsByTitle localHost (pageRejectingRemote 401) []
            ⟨some "+15551234567", some "team", none, false⟩).1.data.bind
              (fun d => d.results)) = some [successRecord none teamGroup []]
      ∧ (getGroupMessages (pageRejectingRemote 404) [Request.groups "+15551234567"]
          "WAG-team-1" 0).1
        = Except.error
            ⟨"Group not found (404): The group UUID 'WAG-team-1' does not exist", none⟩
      ∧ (getGroupMessages (pageRejectingRemote 401) [Request.groups "+15551234567"]
          "WAG-team-1" 0).1
        = Except.error ⟨"Authentication failed (401): Please check your API key", none⟩
      ∧ (getAllGroupMessages (pageRejectingRemote 404) [Request.groups "+15551234567"]
          "WAG-team-1" 10).1 = Except.ok []
      ∧ (getAllGroupMessages (pageRejectingRemote 401) [Request.groups "+15551234567"]
          "WAG-team-1" 10).1 = Except.ok [] :=
  ⟨rfl, rfl, rfl, rfl, rfl, rfl, rfl, rfl, rfl, rfl⟩

/-- C24: for every remote and every `maxPages`, `getAllGroupMessages` returns,
the requests it issues are those for the pages `0, 1, ..., n-1` in this order
for some `n ≤ max(maxPages, 0)`, whatever page number the remote echoes, and
the loop stops by its own conditions: more fuel than `max(maxPages, 0)`
iterations changes nothing. -/
theorem getAllGroupMessages_page_sequence (R : Remote) (t : Trace) (groupUuid : String)
    (maxPages : Int) :
    (∃ n, n ≤ maxPages.toNat
        ∧ (getAllGroupMessages R t groupUuid maxPages).2 = t ++ pageRequests groupUuid n
        ∧ (issued t (getAllGroupMessages R t groupUuid maxPages).2).length = n)
      ∧ (∀ extra, getAllLoop R groupUuid maxPages (maxPages.toNat + extra) t 0 []
          = getAllLoop R groupUuid maxPages maxPages.toNat t 0 [])
      ∧ pageRequests groupUuid 3
        = [Request.messages groupUuid 0, Request.messages groupUuid 1,
            Request.messages groupUuid 2] := by
  refine ⟨?_, getAllLoop_fuel_add R groupUuid maxPages t 0 [] maxPages.toNat (by simp), rfl⟩
  obtain ⟨n, hn, hd⟩ := getAllLoop_pages R groupUuid maxPages maxPages.toNat t 0 []
  have htr : (getAllGroupMessages R t groupUuid maxPages).2 = t ++ pageRequests groupUuid n := by
    unfold getAllGroupMessages
    simp only [hd, pageRequests, List.range_eq_range']
  refine ⟨n, hn, htr, ?_⟩
  rw [htr, issued_append]
  simp [pageRequests]

/-- C25: `getAllGroupMessages` never raises: for every remote it resolves with a
list.  When the fetch of page 0 fails, with any error, it resolves with the
empty list, the value it also resolves with when page 0 is empty.  Hence no
record pushed by the group loops of `searchAllNumbers` and
`searchGroupsByTitle` carries `error` or `errorType`. -/
theorem getAllGroupMessages_never_raises (R : Remote) (t : Trace) (groupUuid : String)
    (maxPages : Int) (ctrl : ChatController) (groupTitle : Option String)
    (groups : List Group) :
    (∃ messages, (getAllGroupMessages R t groupUuid maxPages).1 = Except.ok messages)
      ∧ ((∃ e, (getGroupMessages R t groupUuid 0).1 = Except.error e) →
          (getAllGroupMessages R t groupUuid maxPages).1 = Except.ok [])
      ∧ ((∃ r, (getGroupMessages R t groupUuid 0).1 = Except.ok r ∧ r.messages = []) →
          (getAllGroupMessages R t groupUuid maxPages).1 = Except.ok [])
      ∧ (∀ r ∈ (searchAllRun R ctrl t groupTitle maxPages).allResults,
          r.error = none ∧ r.errorType = none)
      ∧ (∀ r ∈ (groups.foldl (processMatchingGroup R maxPages) ([], t)).1,
          r.error = none ∧ r.errorType = none)
      ∧ (getAllGroupMessages (rejectingRemote 500) [] "WAG-team-1" 10).1 = Except.ok []
      ∧ (getAllGroupMessages (rejectingRemote 401) [] "WAG-team-1" 10).1 = Except.ok [] := by
  refine ⟨?_, ?_, ?_, ?_, ?_, rfl, rfl⟩
  · obtain ⟨messages, d, h, _⟩ := getAllGroupMessages_resolves R t groupUuid maxPages
    exact ⟨messages, by rw [h]⟩
  · rintro ⟨e, he⟩
    unfold getAllGroupMessages
    by_cases hc : ((0 : Nat) : Int) < maxPages
    · have hf : maxPages.toNat = (maxPages.toNat - 1) + 1 := by omega
      rw [hf, getAllLoop_step_error R groupUuid maxPages _ t 0 [] e hc he]
    · rw [getAllLoop_done R groupUuid maxPages _ t 0 [] hc]
  · rintro ⟨r, hr, hempty⟩
    unfold getAllGroupMessages
    by_cases hc : ((0 : Nat) : Int) < maxPages
    · have hf : maxPages.toNat = (maxPages.toNat - 1) + 1 := by omega
      rw [hf, getAllLoop_step_empty R groupUuid maxPages _ t 0 [] r hc hr hempty]
    · rw [getAllLoop_done R groupUuid maxPages _ t 0 [] hc]
  · intro r hr
    exact successShape_no_error r
      (searchLoop_shapes R groupTitle maxPages (uniqueNumbers ctrl.predefinedNumbers) t r hr).1
  · obtain ⟨recs, d, hrun, _, hall⟩ := processMatchingGroups_spec R maxPages groups ([], t)
    rw [hrun]
    intro r hr
    exact successShape_no_error r (hall r (by simpa using hr)).1

/-- C26: every number of the predefined list satisfies the phone pattern; the
list has 11 entries, 9 of them distinct; and every search-all response that
carries data reports `numbersSearched = 9`, which every response without
export does. -/
theorem predefinedNumbers_valid_and_counted (H : Host) (R : Remote) (t : Trace)
    (body : SearchAllBody) :
    (∀ n ∈ ChatController.new.predefinedNumbers, phoneRegexTest n = true)
      ∧ ChatController.new.predefinedNumbers.length = 11
      ∧ (uniqueNumbers ChatController.new.predefinedNumbers).length = 9
      ∧ (∀ data, (searchAllNumbers H R ChatController.new t body).1.data = some data →
          data.numbersSearched = 9)
      ∧ (body.exportParam = false →
          ∃ data, (searchAllNumbers H R ChatController.new t body).1.data = some data) := by
  refine ⟨by decide, by decide, by decide, ?_, ?_⟩
  · intro data hdata
    have h9 : (uniqueNumbers ChatController.new.predefinedNumbers).length = 9 := by decide
    unfold searchAllNumbers at hdata
    by_cases hx : body.exportParam = true
    · simp only [hx, if_true] at hdata
      cases hexp : exportSearchAll H body.groupTitle with
      | ok info =>
        rw [hexp] at hdata
        simp only [Option.some.injEq] at hdata
        rw [← hdata]
        exact h9
      | error e =>
        rw [hexp] at hdata
        simp at hdata
    · simp only [hx, Bool.false_eq_true, if_false, Option.some.injEq] at hdata
      rw [← hdata]
      exact h9
  · intro hx
    unfold searchAllNumbers
    simp [hx]

/-! ## The two-number scenario -/

theorem getAllGroupMessages_first_page_only (R : Remote) (t : Trace) (u : String)
    (maxPages : Int) (msgs : List Message) (hcap : 1 ≤ maxPages)
    (h0 : ∃ r, (getGroupMessages R t u 0).1 = Except.ok r ∧ r.messages = msgs ∧ msgs ≠ [])
    (hfit : msgs.length ≤ R.engine.argumentLimit)
    (h1 : 2 ≤ maxPages →
      ∃ r, (getGroupMessages R (t ++ [Request.messages u 0]) u 1).1 = Except.ok r
        ∧ r.messages = []) :
    getAllGroupMessages R t u maxPages
      = (Except.ok msgs, t ++ pageRequests u (min 2 maxPages.toNat)) := by
  obtain ⟨r0, hr0, hm0, hne⟩ := h0
  have hc0 : ((0 : Nat) : Int) < maxPages := by omega
  have hloop : ∀ fuel, fuel = maxPages.toNat →
      getAllLoop R u maxPages fuel t 0 []
        = (msgs, t ++ pageRequests u (min 2 maxPages.toNat)) := by
    intro fuel hfuel
    obtain ⟨f, rfl⟩ : ∃ f, fuel = f + 1 := ⟨fuel - 1, by omega⟩
    rw [getAllLoop_step_ok R u maxPages f t 0 [] r0 hc0 hr0 (hm0 ▸ hne) (hm0 ▸ hfit), hm0]
    by_cases h2 : 2 ≤ maxPages
    · obtain ⟨r1, hr1, hm1⟩ := h1 h2
      have hc1 : ((0 + 1 : Nat) : Int) < maxPages := by omega
      have hmin : min 2 maxPages.toNat = 2 := by omega
      obtain ⟨f', rfl⟩ : ∃ f', f = f' + 1 := ⟨f - 1, by omega⟩
      rw [getAllLoop_step_empty R u maxPages f' _ (0 + 1) _ r1 hc1 hr1 hm1, hmin]
      simp [pageRequests, List.range_succ]
    · have hc1 : ¬ ((0 + 1 : Nat) : Int) < maxPages := by omega
      have hmin : min 2 maxPages.toNat = 1 := by omega
      rw [getAllLoop_done R u maxPages _ _ (0 + 1) _ hc1, hmin]
      simp [pageRequests, List.range_succ]
  unfold getAllGroupMessages
  rw [hloop _ rfl]

theorem processNumber_single (R : Remote) (groupTitle : Option String) (maxPages : Int)
    (st : SearchState) (n : String) (groups : List Group) (g : Group) (msgs : List Message)
    (t' : Trace) (hlist : (listGroups R st.trace n).1 = Except.ok (some groups))
    (hmatch : selectGroups R groupTitle groups = [g])
    (hall : getAllGroupMessages R (st.trace ++ [Request.groups n]) g.uuid maxPages
      = (Except.ok msgs, t')) :
    processNumber R groupTitle maxPages st n
      = ⟨st.allResults ++ [successRecord (some n) g msgs], st.errors, t'⟩ := by
  have ht := listGroups_trace R st.trace n
  have hg0 : groups.length ≠ 0 := by
    intro h0
    rw [List.length_eq_zero.mp h0, selectGroups_nil] at hmatch
    simp at hmatch
  unfold processNumber
  rcases hl : listGroups R st.trace n with ⟨res, t1⟩
  rw [hl] at hlist ht
  simp only at hlist ht
  subst hlist ht
  simp only [hg0, if_false, hmatch, List.length_singleton, one_ne_zero, List.foldl_cons,
    List.foldl_nil]
  unfold processGroup
  simp only [hall]

theorem processNumber_failed (R : Remote) (groupTitle : Option String) (maxPages : Int)
    (st : SearchState) (n : String) (e : JsError)
    (hfail : (listGroups R st.trace n).1 = Except.error e) :
    processNumber R groupTitle maxPages st n
      = ⟨st.allResults, st.errors ++ [⟨n, e.message⟩], st.trace ++ [Request.groups n]⟩ := by
  have ht := listGroups_trace R st.trace n
  unfold processNumber
  rcases hl : listGroups R st.trace n with ⟨res, t1⟩
  rw [hl] at hfail ht
  simp only at hfail ht
  subst hfail ht
  rfl

/-- C21 (the claim fails): in the scenario run (numbers `+15551234567` and
`+15557654321`, filter `team`, three messages on page 0) the one `errors`
entry holds the second number and the message of the 401 rejection and no kind
tag, and the one `results` entry has no `errorType` either; and with
`maxPages = 0` the one success entry holds no message at all. -/
theorem scenario_failure_entry_untagged :
    (searchAllNumbers localHost teamRemote scenarioController []
        ⟨some "team", none, false⟩).1.data.map (fun d => d.errors)
      = some [⟨"+15557654321", "Request failed with status code 401"⟩]
      ∧ (searchAllNumbers localHost teamRemote scenarioController []
          ⟨some "team", none, false⟩).1.data.map (fun d => d.results.map (fun r => r.errorType))
        = some [none]
      ∧ (searchAllNumbers localHost teamRemote scenarioController []
          ⟨some "team", some 0, false⟩).1.data.map (fun d => d.results.map (fun r => r.messages))
        = some [some []] :=
  ⟨rfl, rfl, rfl⟩

/-- C21 (amended): in a run over two distinct numbers with a page cap of at
least 1, where the first number lists exactly one group matching the title
filter whose page 0 holds the messages `msgs` (at least one, and no more than
one call of `push` takes as arguments) and whose page 1, when the cap lets it
be requested, is empty, and where the listing of the second number fails with
the 401 error `e`: the response is a success whose `results` is exactly one
success record holding `msgs`, and whose `errors` is exactly one entry,
`{phoneNumber: second number, error: e.message}`, which carries the message
and no kind tag. -/
theorem searchAllNumbers_two_number_scenario (H : Host) (R : Remote) (ctrl : ChatController)
    (t : Trace) (n1 n2 : String) (groupTitle : Option String) (maxPages : Option Int)
    (groups : List Group) (g : Group) (msgs : List Message) (e : JsError)
    (hnums : uniqueNumbers ctrl.predefinedNumbers = [n1, n2])
    (hcap : 1 ≤ maxPages.getD 10)
    (hlist : (listGroups R t n1).1 = Except.ok (some groups))
    (hmatch : selectGroups R groupTitle groups = [g])
    (hpage0 : ∃ r, (getGroupMessages R (t ++ [Request.groups n1]) g.uuid 0).1 = Except.ok r
      ∧ r.messages = msgs ∧ msgs ≠ [])
    (hfit : msgs.length ≤ R.engine.argumentLimit)
    (hpage1 : 2 ≤ maxPages.getD 10 →
      ∃ r, (getGroupMessages R (t ++ [Request.groups n1] ++ [Request.messages g.uuid 0])
          g.uuid 1).1 = Except.ok r ∧ r.messages = [])
    (hfail : (listGroups R
        (t ++ [Request.groups n1] ++ pageRequests g.uuid (min 2 (maxPages.getD 10).toNat)) n2).1
      = Except.error e)
    (h401 : e.status = some 401) :
    n1 ≠ n2
      ∧ (searchAllNumbers H R ctrl t ⟨groupTitle, maxPages, false⟩).1
        = ⟨200, true,
            some ⟨"all_numbers", 2, 1, orDefault groupTitle "all groups", 1,
              [⟨some n1, groupInfo g, some msgs.length, some msgs, none, none⟩],
              [⟨n2, e.message⟩]⟩,
            none, none⟩ := by
  have _ := h401
  have hnd : [n1, n2].Nodup := hnums ▸ uniqueNumbers_nodup ctrl.predefinedNumbers
  have hne : n1 ≠ n2 := by
    intro h
    rw [h] at hnd
    simp at hnd
  have hall := getAllGroupMessages_first_page_only R (t ++ [Request.groups n1]) g.uuid
    (maxPages.getD 10) msgs hcap hpage0 hfit hpage1
  have h1 := processNumber_single R groupTitle (maxPages.getD 10) ⟨[], [], t⟩ n1 groups g msgs
    _ hlist hmatch hall
  have h2 := processNumber_failed R groupTitle (maxPages.getD 10)
    ⟨[] ++ [successRecord (some n1) g msgs], [],
      t ++ [Request.groups n1] ++ pageRequests g.uuid (min 2 (maxPages.getD 10).toNat)⟩
    n2 e hfail
  have hrun : searchAllRun R ctrl t groupTitle (maxPages.getD 10)
      = ⟨[⟨some n1, groupInfo g, some msgs.length, some msgs, none, none⟩],
          [⟨n2, e.message⟩],
          t ++ [Request.groups n1] ++ pageRequests g.uuid (min 2 (maxPages.getD 10).toNat)
            ++ [Request.groups n2]⟩ := by
    unfold searchAllRun searchLoop
    rw [hnums, List.foldl_cons, List.foldl_cons, List.foldl_nil, h1, h2]
    rfl
  refine ⟨hne, ?_⟩
  unfold searchAllNumbers
  simp only [hrun, hnums, Bool.false_eq_true, if_false, List.length_cons, List.length_nil]

theorem searchAllNumbers_two_number_scenario_witness :
    "+15551234567" ≠ "+15557654321"
      ∧ (searchAllNumbers localHost teamRemote scenarioController []
          ⟨some "team", none, false⟩).1
        = ⟨200, true,
            some ⟨"all_numbers", 2, 1, orDefault (some "team") "all groups", 1,
              [⟨some "+15551234567", groupInfo teamGroup, some teamMessages.length,
                some teamMessages, none, none⟩],
              [⟨"+15557654321", (httpFailure 401).message⟩]⟩,
            none, none⟩ :=
  searchAllNumbers_two_number_scenario localHost teamRemote scenarioController []
    "+15551234567" "+15557654321" (some "team") none [teamGroup] teamGroup teamMessages
    (httpFailure 401) (by decide) (by decide) rfl (by decide)
    ⟨⟨some 0, teamMessages⟩, rfl, rfl, by decide⟩ (by decide)
    (fun _ => ⟨⟨some 1, []⟩, rfl, rfl⟩) rfl rfl

end TwoChat
